import Mathlib

/-! # Dynamic rendering sample: command recording, pipeline set-up and frame driver

A shallow embedding of `examples/dynamicrendering/dynamicrendering.cpp`.

* Native handles (images, views, command buffers, layouts ...) are natural numbers.
* Enumerations of the graphics API are inductive types; a bit mask written with `|`
  in the source is the list of the bits that are or-ed together.
* A pointer to a single object is an `Option` (`none` is `nullptr`).
* Every call the sample makes to the driver, to the harness or to the asset loader is
  an entry of a trace (`Call`), in program order.
* `VK_CHECK_RESULT` aborts the run on any result code other than `VK_SUCCESS`.
* Result codes and handles produced by the driver and the behaviour of the harness
  functions are parameters (`Driver`). A harness function acts on the members of the
  harness base class only.
* A pipeline object is identified with the creation record it was created from.
-/

namespace DynamicRendering

/-! ## Native types -/

/-- Result code of a native call. -/
abbrev VkResult := Int

/-- The success code. -/
def VK_SUCCESS : VkResult := 0

abbrev VkImage := Nat
abbrev VkImageView := Nat
abbrev VkCommandBuffer := Nat
abbrev VkPipelineLayout := Nat
abbrev VkDescriptorSet := Nat
abbrev VkDescriptorSetLayout := Nat
abbrev VkDescriptorPool := Nat
abbrev VkQueue := Nat
abbrev VkFence := Nat
abbrev VkSemaphore := Nat
abbrev VkShaderModule := Nat
abbrev VkPipelineCache := Nat
abbrev VkRenderPass := Nat

/-- The null handle. -/
def VK_NULL_HANDLE : Nat := 0

/-- Image and attachment formats, by their numeric code. -/
abbrev VkFormat := Nat

/-- The code of the undefined format. -/
def VK_FORMAT_UNDEFINED : VkFormat := 0

inductive VkImageLayout where
  | VK_IMAGE_LAYOUT_UNDEFINED
  | VK_IMAGE_LAYOUT_COLOR_ATTACHMENT_OPTIMAL
  | VK_IMAGE_LAYOUT_DEPTH_STENCIL_ATTACHMENT_OPTIMAL
  | VK_IMAGE_LAYOUT_PRESENT_SRC_KHR
deriving DecidableEq, Repr

inductive VkAttachmentLoadOp where
  | VK_ATTACHMENT_LOAD_OP_LOAD
  | VK_ATTACHMENT_LOAD_OP_CLEAR
  | VK_ATTACHMENT_LOAD_OP_DONT_CARE
deriving DecidableEq, Repr

inductive VkAttachmentStoreOp where
  | VK_ATTACHMENT_STORE_OP_STORE
  | VK_ATTACHMENT_STORE_OP_DONT_CARE
deriving DecidableEq, Repr

inductive VkPipelineStageFlagBits where
  | VK_PIPELINE_STAGE_TOP_OF_PIPE_BIT
  | VK_PIPELINE_STAGE_EARLY_FRAGMENT_TESTS_BIT
  | VK_PIPELINE_STAGE_LATE_FRAGMENT_TESTS_BIT
  | VK_PIPELINE_STAGE_COLOR_ATTACHMENT_OUTPUT_BIT
  | VK_PIPELINE_STAGE_BOTTOM_OF_PIPE_BIT
deriving DecidableEq, Repr

inductive VkImageAspectFlagBits where
  | VK_IMAGE_ASPECT_COLOR_BIT
  | VK_IMAGE_ASPECT_DEPTH_BIT
  | VK_IMAGE_ASPECT_STENCIL_BIT
deriving DecidableEq, Repr

inductive VkPipelineBindPoint where
  | VK_PIPELINE_BIND_POINT_GRAPHICS
  | VK_PIPELINE_BIND_POINT_COMPUTE
deriving DecidableEq, Repr

inductive VkShaderStageFlagBits where
  | VK_SHADER_STAGE_VERTEX_BIT
  | VK_SHADER_STAGE_FRAGMENT_BIT
deriving DecidableEq, Repr

inductive VkPrimitiveTopology where
  | VK_PRIMITIVE_TOPOLOGY_TRIANGLE_LIST
deriving DecidableEq, Repr

inductive VkPolygonMode where
  | VK_POLYGON_MODE_FILL
deriving DecidableEq, Repr

inductive VkCullModeFlagBits where
  | VK_CULL_MODE_NONE
deriving DecidableEq, Repr

inductive VkFrontFace where
  | VK_FRONT_FACE_COUNTER_CLOCKWISE
deriving DecidableEq, Repr

inductive VkCompareOp where
  | VK_COMPARE_OP_NEVER
  | VK_COMPARE_OP_LESS_OR_EQUAL
deriving DecidableEq, Repr

inductive VkSampleCountFlagBits where
  | VK_SAMPLE_COUNT_1_BIT
deriving DecidableEq, Repr

inductive VkDynamicState where
  | VK_DYNAMIC_STATE_VIEWPORT
  | VK_DYNAMIC_STATE_SCISSOR
deriving DecidableEq, Repr

inductive VkDescriptorType where
  | VK_DESCRIPTOR_TYPE_UNIFORM_BUFFER
deriving DecidableEq, Repr

inductive VkBufferUsageFlagBits where
  | VK_BUFFER_USAGE_UNIFORM_BUFFER_BIT
deriving DecidableEq, Repr

inductive VkMemoryPropertyFlagBits where
  | VK_MEMORY_PROPERTY_HOST_VISIBLE_BIT
  | VK_MEMORY_PROPERTY_HOST_COHERENT_BIT
deriving DecidableEq, Repr

/-- The vertex components of the model loader. -/
inductive VertexComponent where
  | Position
  | Normal
  | UV
deriving DecidableEq, Repr

/-- The file loading flags of the model loader. -/
inductive FileLoadingFlags where
  | PreTransformVertices
  | PreMultiplyVertexColors
  | FlipY
deriving DecidableEq, Repr

/-- The render flags of the model loader. -/
inductive RenderFlags where
  | BindImages
deriving DecidableEq, Repr

/-- Clear value of an attachment: the union member that the source assigns. The float
literals of the source (0.0f, 1.0f) are whole numbers and are kept as integers. -/
inductive VkClearValue where
  | color (r g b a : Int)
  | depthStencil (depth : Int) (stencil : Nat)
deriving DecidableEq, Repr

/-- Rectangle with offset and extent. The harness initializer `rect2D(width, height,
offsetX, offsetY)` and the brace initializer `{ x, y, width, height }` of the source both
give the four members. -/
structure VkRect2D where
  offsetX : Int
  offsetY : Int
  width : Nat
  height : Nat
deriving DecidableEq, Repr

/-- Viewport as built by the harness initializer from its four arguments; the
conversions `(float)width` and `(float)height` are kept symbolic, the field holds the
integer that is converted. -/
structure VkViewport where
  width : Nat
  height : Nat
  minDepth : Int
  maxDepth : Int
deriving DecidableEq, Repr

structure VkImageSubresourceRange where
  aspectMask : List VkImageAspectFlagBits
  baseMipLevel : Nat
  levelCount : Nat
  baseArrayLayer : Nat
  layerCount : Nat
deriving DecidableEq, Repr

structure VkRenderingAttachmentInfoKHR where
  imageView : VkImageView
  imageLayout : VkImageLayout
  loadOp : VkAttachmentLoadOp
  storeOp : VkAttachmentStoreOp
  clearValue : VkClearValue
deriving DecidableEq, Repr

/-- Rendering info of a scope. `pColorAttachments` points to a single attachment record
in the source, so the array it denotes has at most one element. -/
structure VkRenderingInfoKHR where
  renderArea : VkRect2D
  layerCount : Nat
  colorAttachmentCount : Nat
  pColorAttachments : Option VkRenderingAttachmentInfoKHR
  pDepthAttachment : Option VkRenderingAttachmentInfoKHR
  pStencilAttachment : Option VkRenderingAttachmentInfoKHR
deriving DecidableEq, Repr

/-! ## Pipeline creation records

The state records below are built in the source by initializer functions of the harness
(`vks::initializers::...`), which are not part of the sample's file. A record is given
here by the arguments of the initializer call that builds it, under the names of the
members the arguments are for.
-/

structure VkPipelineInputAssemblyStateCreateInfo where
  topology : VkPrimitiveTopology
  flags : Nat
  primitiveRestartEnable : Bool
deriving DecidableEq, Repr

structure VkPipelineRasterizationStateCreateInfo where
  polygonMode : VkPolygonMode
  cullMode : VkCullModeFlagBits
  frontFace : VkFrontFace
  flags : Nat
deriving DecidableEq, Repr

structure VkPipelineColorBlendAttachmentState where
  colorWriteMask : Nat
  blendEnable : Bool
deriving DecidableEq, Repr

structure VkPipelineColorBlendStateCreateInfo where
  attachmentCount : Nat
  pAttachments : Option VkPipelineColorBlendAttachmentState
deriving DecidableEq, Repr

structure VkPipelineDepthStencilStateCreateInfo where
  depthTestEnable : Bool
  depthWriteEnable : Bool
  depthCompareOp : VkCompareOp
deriving DecidableEq, Repr

structure VkPipelineViewportStateCreateInfo where
  viewportCount : Nat
  scissorCount : Nat
  flags : Nat
deriving DecidableEq, Repr

structure VkPipelineMultisampleStateCreateInfo where
  rasterizationSamples : VkSampleCountFlagBits
  flags : Nat
deriving DecidableEq, Repr

structure VkPipelineDynamicStateCreateInfo where
  pDynamicStates : List VkDynamicState
deriving DecidableEq, Repr

/-- Shader stage record as returned by the harness function `loadShader`. -/
structure VkPipelineShaderStageCreateInfo where
  stage : VkShaderStageFlagBits
  module : VkShaderModule
  pName : String
deriving DecidableEq, Repr

structure VkPipelineRenderingCreateInfoKHR where
  colorAttachmentCount : Nat
  pColorAttachmentFormats : Option VkFormat
  depthAttachmentFormat : VkFormat
  stencilAttachmentFormat : VkFormat
deriving DecidableEq, Repr

/-- The graphics pipeline creation record, with the fields the sample assigns.
`pStages` is the array behind the pointer, one entry per element of the `shaderStages`
array of the source: `some st` for an element that was assigned the stage `st`, `none`
for an element left as `{}` initialised it. -/
structure VkGraphicsPipelineCreateInfo where
  layout : VkPipelineLayout
  pInputAssemblyState : VkPipelineInputAssemblyStateCreateInfo
  pRasterizationState : VkPipelineRasterizationStateCreateInfo
  pColorBlendState : VkPipelineColorBlendStateCreateInfo
  pMultisampleState : VkPipelineMultisampleStateCreateInfo
  pViewportState : VkPipelineViewportStateCreateInfo
  pDepthStencilState : VkPipelineDepthStencilStateCreateInfo
  pDynamicState : VkPipelineDynamicStateCreateInfo
  stageCount : Nat
  pStages : List (Option VkPipelineShaderStageCreateInfo)
  pVertexInputState : List VertexComponent
  pNext : Option VkPipelineRenderingCreateInfoKHR
  renderPass : Option VkRenderPass
deriving DecidableEq, Repr

/-- A pipeline object is identified with the creation record it was created from;
`none` is the null handle of a pipeline member that has not been created. -/
abbrev VkPipeline := Option VkGraphicsPipelineCreateInfo

/-! ## State of the sample -/

/-- Matrices and vectors of the mathematics library. The sample only copies them, so
a value is the list of the bit patterns of its components. -/
abbrev mat4 := List Nat

/-- Four component vector, see mat4. -/
abbrev vec4 := List Nat

/-- The matrices of the harness camera. -/
structure CameraMatrices where
  perspective : mat4
  view : mat4
deriving DecidableEq, Repr

/-- The harness camera, with the members the sample reads. -/
structure Camera where
  matrices : CameraMatrices
  viewPos : vec4
deriving DecidableEq, Repr

/-- The uniform record of the vertex shader. -/
structure UniformData where
  projection : mat4
  modelView : mat4
  viewPos : vec4
deriving DecidableEq, Repr

/-- The harness buffer wrapper. `mapped` is the pointer to the host visible memory of
the buffer: `none` is the null pointer, `some r` points to memory that holds `r`. -/
structure Buffer where
  buffer : Nat
  mapped : Option UniformData
deriving DecidableEq, Repr

/-- One swap chain slot. -/
structure SwapChainBuffer where
  image : VkImage
  view : VkImageView
deriving DecidableEq, Repr

structure VulkanSwapChain where
  colorFormat : VkFormat
  buffers : List SwapChainBuffer
deriving DecidableEq, Repr

/-- The depth/stencil image of the harness. -/
structure DepthStencil where
  image : VkImage
  view : VkImageView
deriving DecidableEq, Repr

/-- Submit record. `pCommandBuffers` is the array seen through the pointer: the
elements of the pointed-to vector from the pointee on. The semaphore members are set
by the harness and never written by the sample. -/
structure VkSubmitInfo where
  waitSemaphores : List VkSemaphore
  signalSemaphores : List VkSemaphore
  commandBufferCount : Nat
  pCommandBuffers : List VkCommandBuffer
deriving DecidableEq, Repr

/-- The members of the harness base class that the sample reads or writes. -/
structure VulkanExampleBase where
  width : Nat
  height : Nat
  camera : Camera
  prepared : Bool
  currentBuffer : Nat
  drawCmdBuffers : List VkCommandBuffer
  swapChain : VulkanSwapChain
  depthStencil : DepthStencil
  depthFormat : VkFormat
  submitInfo : VkSubmitInfo
  queue : VkQueue
  pipelineCache : VkPipelineCache
  descriptorPool : VkDescriptorPool
deriving DecidableEq, Repr

/-- The sample class: the harness base plus its own members. -/
structure VulkanExample extends VulkanExampleBase where
  uniformData : UniformData
  uniformBuffer : Buffer
  pipelineLayout : VkPipelineLayout
  pipelineFull : VkPipeline
  pipelineColorOnly : VkPipeline
  pipelineDepthOnly : VkPipeline
  descriptorSet : VkDescriptorSet
  descriptorSetLayout : VkDescriptorSetLayout
deriving DecidableEq, Repr

/-- The render target pair member type of the sample. -/
structure RenderTarget where
  image : VkImage
  view : VkImageView
deriving DecidableEq, Repr

/-! ## Traces -/

/-- The calls the sample makes, with their arguments. -/
inductive Call where
  | vkBeginCommandBuffer (cmdBuffer : VkCommandBuffer)
  | insertImageMemoryBarrier (cmdBuffer : VkCommandBuffer) (image : VkImage)
      (srcAccessMask dstAccessMask : Nat) (oldImageLayout newImageLayout : VkImageLayout)
      (srcStageMask dstStageMask : List VkPipelineStageFlagBits)
      (subresourceRange : VkImageSubresourceRange)
  | vkCmdBeginRenderingKHR (cmdBuffer : VkCommandBuffer) (renderingInfo : VkRenderingInfoKHR)
  | vkCmdSetViewport (cmdBuffer : VkCommandBuffer) (firstViewport viewportCount : Nat)
      (viewport : VkViewport)
  | vkCmdSetScissor (cmdBuffer : VkCommandBuffer) (firstScissor scissorCount : Nat)
      (scissor : VkRect2D)
  | vkCmdBindDescriptorSets (cmdBuffer : VkCommandBuffer) (bindPoint : VkPipelineBindPoint)
      (layout : VkPipelineLayout) (firstSet descriptorSetCount : Nat)
      (descriptorSet : VkDescriptorSet) (dynamicOffsetCount : Nat)
  | vkCmdBindPipeline (cmdBuffer : VkCommandBuffer) (bindPoint : VkPipelineBindPoint)
      (pipeline : VkPipeline)
  | modelDraw (cmdBuffer : VkCommandBuffer) (renderFlags : List RenderFlags)
      (pipelineLayout : VkPipelineLayout)
  | vkCmdEndRenderingKHR (cmdBuffer : VkCommandBuffer)
  | vkEndCommandBuffer (cmdBuffer : VkCommandBuffer)
  | prepareFrame
  /-- The queue submission. Besides the four arguments of the native call the entry
  records `uniformMemory`, the content of the mapped uniform buffer memory at the moment
  of the call: this is the uniform record the submitted commands read. -/
  | vkQueueSubmit (queue : VkQueue) (submitCount : Nat) (submitInfo : VkSubmitInfo)
      (fence : VkFence) (uniformMemory : Option UniformData)
  | submitFrame
  | loadShader (fileName : String) (stage : VkShaderStageFlagBits)
  | vkCreateGraphicsPipelines (pipelineCache : VkPipelineCache) (createInfoCount : Nat)
      (pipelineCI : VkGraphicsPipelineCreateInfo)
  | createBuffer (usageFlags : List VkBufferUsageFlagBits)
      (memoryPropertyFlags : List VkMemoryPropertyFlagBits) (data : UniformData)
  | bufferMap (buffer : Nat)
  | memcpy (src : UniformData)
  | basePrepare
  | vkGetDeviceProcAddr (name : String)
  | modelLoadFromFile (fileName : String) (flags : List FileLoadingFlags) (queue : VkQueue)
  | vkCreateDescriptorPool (poolSizes : List (VkDescriptorType × Nat)) (maxSets : Nat)
  | vkCreateDescriptorSetLayout
      (setLayoutBindings : List (VkDescriptorType × VkShaderStageFlagBits × Nat))
  | vkCreatePipelineLayout (setLayouts : List VkDescriptorSetLayout) (setLayoutCount : Nat)
  | vkAllocateDescriptorSets (descriptorPool : VkDescriptorPool)
      (setLayout : VkDescriptorSetLayout) (descriptorSetCount : Nat)
  | vkUpdateDescriptorSets (descriptorSet : VkDescriptorSet) (type : VkDescriptorType)
      (binding : Nat) (buffer : Nat)
deriving DecidableEq, Repr

/-- Why a run stopped early. -/
inductive Abort where
  | vkError (res : VkResult)
  | undefinedBehaviour
deriving DecidableEq, Repr

/-- Outcome of running a piece of the sample: the calls made, in order, and either the
value it returned or the reason it stopped. -/
structure Run (σ : Type) where
  trace : List Call
  result : Except Abort σ

/-- Sequencing: the second part runs only when the first returned. -/
def Run.bind {σ τ : Type} (x : Run σ) (f : σ → Run τ) : Run τ :=
  match x.result with
  | .error e => ⟨x.trace, .error e⟩
  | .ok a => ⟨x.trace ++ (f a).trace, (f a).result⟩

instance : Monad Run where
  pure a := ⟨[], .ok a⟩
  bind := Run.bind

/-- A call that returns nothing the sample looks at. -/
def call (c : Call) : Run Unit := ⟨[c], .ok ()⟩

/-- Modelled from the spec: the harness macro VK_CHECK_RESULT is not in the sample's
file. "All failures are fatal aborts surfaced by the native API's own result codes":
the checked call is made, and any result code other than VK_SUCCESS stops the run. -/
def VK_CHECK_RESULT (c : Call) (res : VkResult) : Run Unit :=
  if res = VK_SUCCESS then ⟨[c], .ok ()⟩ else ⟨[c], .error (.vkError res)⟩

/-- A call of a harness function that may itself stop the run. -/
def harnessCall {σ : Type} (c : Call) (r : Except Abort σ) : Run σ := ⟨[c], r⟩

/-- Stops the run at an operation without defined behaviour. -/
def undefinedBehaviour {σ : Type} : Run σ := ⟨[], .error .undefinedBehaviour⟩

/-- What the sample takes from outside its own file: the result codes and handles the
driver returns, and the harness and asset loader functions it calls. A harness function
acts on the members of the base class only. The uniform record visible to the device
is carried by the `vkQueueSubmit` entry of the trace (`uniformMemory`): it is the
content of the mapped memory of the uniform buffer at the moment of the call. -/
structure Driver where
  vkBeginCommandBuffer : VkCommandBuffer → VkResult
  vkEndCommandBuffer : VkCommandBuffer → VkResult
  vkQueueSubmit : VkQueue → Nat → VkSubmitInfo → VkFence → VkResult
  prepareFrame : VulkanExampleBase → Except Abort VulkanExampleBase
  submitFrame : VulkanExampleBase → Except Abort VulkanExampleBase
  getShadersPath : String
  getAssetPath : String
  loadShader : String → VkShaderStageFlagBits → VkPipelineShaderStageCreateInfo
  vkCreateGraphicsPipelines : VkGraphicsPipelineCreateInfo → VkResult
  createBuffer : List VkBufferUsageFlagBits → List VkMemoryPropertyFlagBits → UniformData →
    VkResult × Buffer
  bufferMap : Buffer → VkResult × Buffer
  basePrepare : VulkanExampleBase → Except Abort VulkanExampleBase
  vkCreateDescriptorPool : VkResult × VkDescriptorPool
  vkCreateDescriptorSetLayout : VkResult × VkDescriptorSetLayout
  descriptorSetLayoutImage : VkDescriptorSetLayout
  vkCreatePipelineLayout : List VkDescriptorSetLayout → VkResult × VkPipelineLayout
  vkAllocateDescriptorSets : VkDescriptorPool → VkDescriptorSetLayout → VkResult × VkDescriptorSet

/-! ## Command recording -/

/-- The method `render(layout, pipeline, renderingInfo, cmdBuffer)`: one rendering scope. -/
def render (ex : VulkanExample) (_layout : VkPipelineLayout) (pipeline : VkPipeline)
    (renderingInfo : VkRenderingInfoKHR) (cmdBuffer : VkCommandBuffer) : Run Unit := do
  -- Begin dynamic rendering
  call (.vkCmdBeginRenderingKHR cmdBuffer renderingInfo)
  let viewport : VkViewport := ⟨ex.width, ex.height, 0, 1⟩
  call (.vkCmdSetViewport cmdBuffer 0 1 viewport)
  let scissor : VkRect2D := ⟨0, 0, ex.width, ex.height⟩
  call (.vkCmdSetScissor cmdBuffer 0 1 scissor)
  call (.vkCmdBindDescriptorSets cmdBuffer .VK_PIPELINE_BIND_POINT_GRAPHICS ex.pipelineLayout
    0 1 ex.descriptorSet 0)
  call (.vkCmdBindPipeline cmdBuffer .VK_PIPELINE_BIND_POINT_GRAPHICS pipeline)
  call (.modelDraw cmdBuffer [.BindImages] ex.pipelineLayout)
  -- End dynamic rendering
  call (.vkCmdEndRenderingKHR cmdBuffer)

/-- The local `colorAttachment` of buildCommandBuffer. -/
def colorAttachment (colorRenderTarget : RenderTarget) : VkRenderingAttachmentInfoKHR :=
  { imageView := colorRenderTarget.view
    imageLayout := .VK_IMAGE_LAYOUT_COLOR_ATTACHMENT_OPTIMAL
    loadOp := .VK_ATTACHMENT_LOAD_OP_CLEAR
    storeOp := .VK_ATTACHMENT_STORE_OP_STORE
    clearValue := .color 0 0 0 0 }

/-- The local `depthStencilAttachment` of buildCommandBuffer. -/
def depthStencilAttachment (depthStencilRenderTarget : RenderTarget) :
    VkRenderingAttachmentInfoKHR :=
  { imageView := depthStencilRenderTarget.view
    imageLayout := .VK_IMAGE_LAYOUT_DEPTH_STENCIL_ATTACHMENT_OPTIMAL
    loadOp := .VK_ATTACHMENT_LOAD_OP_CLEAR
    storeOp := .VK_ATTACHMENT_STORE_OP_STORE
    clearValue := .depthStencil 1 0 }

/-- The local `renderingInfoFull` of buildCommandBuffer. -/
def renderingInfoFull (ex : VulkanExample) (colorRenderTarget depthStencilRenderTarget : RenderTarget) :
    VkRenderingInfoKHR :=
  { renderArea := ⟨0, 0, ex.width, ex.height⟩
    layerCount := 1
    colorAttachmentCount := 1
    pColorAttachments := some (colorAttachment colorRenderTarget)
    pDepthAttachment := some (depthStencilAttachment depthStencilRenderTarget)
    pStencilAttachment := some (depthStencilAttachment depthStencilRenderTarget) }

/-- The local `renderingInfoColorOnly` of buildCommandBuffer. -/
def renderingInfoColorOnly (ex : VulkanExample) (colorRenderTarget : RenderTarget) :
    VkRenderingInfoKHR :=
  { renderArea := ⟨0, 0, ex.width, ex.height⟩
    layerCount := 1
    colorAttachmentCount := 1
    pColorAttachments := some (colorAttachment colorRenderTarget)
    pDepthAttachment := none
    pStencilAttachment := none }

/-- The local `renderingInfoDepthOnly` of buildCommandBuffer. -/
def renderingInfoDepthOnly (ex : VulkanExample) (depthStencilRenderTarget : RenderTarget) :
    VkRenderingInfoKHR :=
  { renderArea := ⟨0, 0, ex.width, ex.height⟩
    layerCount := 1
    colorAttachmentCount := 0
    pColorAttachments := none
    pDepthAttachment := some (depthStencilAttachment depthStencilRenderTarget)
    pStencilAttachment := some (depthStencilAttachment depthStencilRenderTarget) }

/-- The method `buildCommandBuffer(colorRenderTarget, depthStencilRenderTarget, cmdBuffer)`. -/
def buildCommandBuffer (d : Driver) (ex : VulkanExample)
    (colorRenderTarget depthStencilRenderTarget : RenderTarget)
    (cmdBuffer : VkCommandBuffer) : Run Unit := do
  VK_CHECK_RESULT (.vkBeginCommandBuffer cmdBuffer) (d.vkBeginCommandBuffer cmdBuffer)
  -- Transition color and depth images for drawing
  call (.insertImageMemoryBarrier cmdBuffer colorRenderTarget.image 0 0
    .VK_IMAGE_LAYOUT_UNDEFINED .VK_IMAGE_LAYOUT_COLOR_ATTACHMENT_OPTIMAL
    [.VK_PIPELINE_STAGE_TOP_OF_PIPE_BIT] [.VK_PIPELINE_STAGE_COLOR_ATTACHMENT_OUTPUT_BIT]
    ⟨[.VK_IMAGE_ASPECT_COLOR_BIT], 0, 1, 0, 1⟩)
  call (.insertImageMemoryBarrier cmdBuffer depthStencilRenderTarget.image 0 0
    .VK_IMAGE_LAYOUT_UNDEFINED .VK_IMAGE_LAYOUT_DEPTH_STENCIL_ATTACHMENT_OPTIMAL
    [.VK_PIPELINE_STAGE_EARLY_FRAGMENT_TESTS_BIT, .VK_PIPELINE_STAGE_LATE_FRAGMENT_TESTS_BIT]
    [.VK_PIPELINE_STAGE_EARLY_FRAGMENT_TESTS_BIT, .VK_PIPELINE_STAGE_LATE_FRAGMENT_TESTS_BIT]
    ⟨[.VK_IMAGE_ASPECT_DEPTH_BIT, .VK_IMAGE_ASPECT_STENCIL_BIT], 0, 1, 0, 1⟩)
  -- the two scopes that are not commented out in the source
  render ex ex.pipelineLayout ex.pipelineDepthOnly
    (renderingInfoDepthOnly ex depthStencilRenderTarget) cmdBuffer
  render ex ex.pipelineLayout ex.pipelineColorOnly
    (renderingInfoColorOnly ex colorRenderTarget) cmdBuffer
  -- Transition color image for presentation
  call (.insertImageMemoryBarrier cmdBuffer colorRenderTarget.image 0 0
    .VK_IMAGE_LAYOUT_COLOR_ATTACHMENT_OPTIMAL .VK_IMAGE_LAYOUT_PRESENT_SRC_KHR
    [.VK_PIPELINE_STAGE_COLOR_ATTACHMENT_OUTPUT_BIT] [.VK_PIPELINE_STAGE_BOTTOM_OF_PIPE_BIT]
    ⟨[.VK_IMAGE_ASPECT_COLOR_BIT], 0, 1, 0, 1⟩)
  VK_CHECK_RESULT (.vkEndCommandBuffer cmdBuffer) (d.vkEndCommandBuffer cmdBuffer)

/-- The loop of buildCommandBuffers from index `i` on, over the command buffers that are
left. The counter of the source is a 32 bit signed integer: incrementing it past
2^31 - 1 has no defined behaviour; reading `swapChain.buffers[i]` outside the vector
has none either. -/
def buildCommandBuffersFrom (d : Driver) (ex : VulkanExample) :
    Nat → List VkCommandBuffer → Run Unit
  | _, [] => pure ()
  | i, cmdBuffer :: rest => do
    match ex.swapChain.buffers[i]? with
    | none => undefinedBehaviour
    | some slot =>
      let colorRenderTarget : RenderTarget := ⟨slot.image, slot.view⟩
      let depthRenderTarget : RenderTarget := ⟨ex.depthStencil.image, ex.depthStencil.view⟩
      buildCommandBuffer d ex colorRenderTarget depthRenderTarget cmdBuffer
      if i + 1 < 2 ^ 31 then buildCommandBuffersFrom d ex (i + 1) rest
      else undefinedBehaviour

/-- The method `buildCommandBuffers()`. -/
def buildCommandBuffers (d : Driver) (ex : VulkanExample) : Run Unit :=
  buildCommandBuffersFrom d ex 0 ex.drawCmdBuffers

/-! ## Frame driver -/

/-- The method `draw()`. The address `&drawCmdBuffers[currentBuffer]` is the view of
the vector from element `currentBuffer` on. -/
def draw (d : Driver) (ex : VulkanExample) : Run VulkanExample := do
  let base ← harnessCall .prepareFrame (d.prepareFrame ex.toVulkanExampleBase)
  let ex : VulkanExample := { ex with toVulkanExampleBase := base }
  let ex : VulkanExample := { ex with submitInfo := { ex.submitInfo with commandBufferCount := 1 } }
  let ex : VulkanExample :=
    { ex with submitInfo := { ex.submitInfo with
        pCommandBuffers := ex.drawCmdBuffers.drop ex.currentBuffer } }
  VK_CHECK_RESULT (.vkQueueSubmit ex.queue 1 ex.submitInfo VK_NULL_HANDLE ex.uniformBuffer.mapped)
    (d.vkQueueSubmit ex.queue 1 ex.submitInfo VK_NULL_HANDLE)
  let base ← harnessCall .submitFrame (d.submitFrame ex.toVulkanExampleBase)
  pure { ex with toVulkanExampleBase := base }

/-! ## Set-up -/

/-- The method `setupDescriptorPool()`. -/
def setupDescriptorPool (d : Driver) (ex : VulkanExample) : Run VulkanExample := do
  let poolSizes := [(VkDescriptorType.VK_DESCRIPTOR_TYPE_UNIFORM_BUFFER, 1)]
  VK_CHECK_RESULT (.vkCreateDescriptorPool poolSizes 1) d.vkCreateDescriptorPool.1
  pure { ex with descriptorPool := d.vkCreateDescriptorPool.2 }

/-- The method `setupDescriptorSetLayout()`. -/
def setupDescriptorSetLayout (d : Driver) (ex : VulkanExample) : Run VulkanExample := do
  let setLayoutBindings :=
    [(VkDescriptorType.VK_DESCRIPTOR_TYPE_UNIFORM_BUFFER,
      VkShaderStageFlagBits.VK_SHADER_STAGE_VERTEX_BIT, 0)]
  VK_CHECK_RESULT (.vkCreateDescriptorSetLayout setLayoutBindings) d.vkCreateDescriptorSetLayout.1
  let ex : VulkanExample := { ex with descriptorSetLayout := d.vkCreateDescriptorSetLayout.2 }
  let setLayouts := [ex.descriptorSetLayout, d.descriptorSetLayoutImage]
  VK_CHECK_RESULT (.vkCreatePipelineLayout setLayouts 2) (d.vkCreatePipelineLayout setLayouts).1
  pure { ex with pipelineLayout := (d.vkCreatePipelineLayout setLayouts).2 }

/-- The method `setupDescriptorSet()`. -/
def setupDescriptorSet (d : Driver) (ex : VulkanExample) : Run VulkanExample := do
  VK_CHECK_RESULT (.vkAllocateDescriptorSets ex.descriptorPool ex.descriptorSetLayout 1)
    (d.vkAllocateDescriptorSets ex.descriptorPool ex.descriptorSetLayout).1
  let ex : VulkanExample :=
    { ex with descriptorSet := (d.vkAllocateDescriptorSets ex.descriptorPool ex.descriptorSetLayout).2 }
  call (.vkUpdateDescriptorSets ex.descriptorSet .VK_DESCRIPTOR_TYPE_UNIFORM_BUFFER 0
    ex.uniformBuffer.buffer)
  pure ex

/-- The array `shaderStages` of the full and of the color only block: two elements,
`std::array<VkPipelineShaderStageCreateInfo, 2> shaderStages{}`, then the assignments to
element 0 (vertex stage) and element 1 (fragment stage). -/
def shaderStagesBoth (d : Driver) : List (Option VkPipelineShaderStageCreateInfo) :=
  let shaderStages : List (Option VkPipelineShaderStageCreateInfo) := [none, none]
  let shaderStages := shaderStages.set 0 (some (d.loadShader
    (d.getShadersPath ++ "dynamicrendering/texture.vert.spv") .VK_SHADER_STAGE_VERTEX_BIT))
  shaderStages.set 1 (some (d.loadShader
    (d.getShadersPath ++ "dynamicrendering/texture.frag.spv") .VK_SHADER_STAGE_FRAGMENT_BIT))

/-- The array `shaderStages` of the depth only block: one element,
`std::array<VkPipelineShaderStageCreateInfo, 1> shaderStages{}`, then the assignment to
element 0 (vertex stage); the assignment of a fragment stage is commented out. -/
def shaderStagesVertex (d : Driver) : List (Option VkPipelineShaderStageCreateInfo) :=
  let shaderStages : List (Option VkPipelineShaderStageCreateInfo) := [none]
  shaderStages.set 0 (some (d.loadShader
    (d.getShadersPath ++ "dynamicrendering/texture.vert.spv") .VK_SHADER_STAGE_VERTEX_BIT))

/-- The record `pipelineCI` of the block "full pipeline" of preparePipelines. -/
def pipelineCIFull (d : Driver) (ex : VulkanExample) : VkGraphicsPipelineCreateInfo :=
  let inputAssemblyState : VkPipelineInputAssemblyStateCreateInfo :=
    ⟨.VK_PRIMITIVE_TOPOLOGY_TRIANGLE_LIST, 0, false⟩
  let rasterizationState : VkPipelineRasterizationStateCreateInfo :=
    ⟨.VK_POLYGON_MODE_FILL, .VK_CULL_MODE_NONE, .VK_FRONT_FACE_COUNTER_CLOCKWISE, 0⟩
  let blendAttachmentState : VkPipelineColorBlendAttachmentState := ⟨0xf, false⟩
  let colorBlendState : VkPipelineColorBlendStateCreateInfo := ⟨1, some blendAttachmentState⟩
  let depthStencilState : VkPipelineDepthStencilStateCreateInfo :=
    ⟨true, true, .VK_COMPARE_OP_LESS_OR_EQUAL⟩
  let viewportState : VkPipelineViewportStateCreateInfo := ⟨1, 1, 0⟩
  let multisampleState : VkPipelineMultisampleStateCreateInfo := ⟨.VK_SAMPLE_COUNT_1_BIT, 0⟩
  let dynamicStateEnables : List VkDynamicState :=
    [.VK_DYNAMIC_STATE_VIEWPORT, .VK_DYNAMIC_STATE_SCISSOR]
  let dynamicState : VkPipelineDynamicStateCreateInfo := ⟨dynamicStateEnables⟩
  let shaderStages := shaderStagesBoth d
  let pipelineRenderingCreateInfo : VkPipelineRenderingCreateInfoKHR :=
    { colorAttachmentCount := 1
      pColorAttachmentFormats := some ex.swapChain.colorFormat
      depthAttachmentFormat := ex.depthFormat
      stencilAttachmentFormat := ex.depthFormat }
  { layout := ex.pipelineLayout
    pInputAssemblyState := inputAssemblyState
    pRasterizationState := rasterizationState
    pColorBlendState := colorBlendState
    pMultisampleState := multisampleState
    pViewportState := viewportState
    pDepthStencilState := depthStencilState
    pDynamicState := dynamicState
    stageCount := shaderStages.length
    pStages := shaderStages
    pVertexInputState := [.Position, .Normal, .UV]
    pNext := some pipelineRenderingCreateInfo
    renderPass := none }

/-- The record `pipelineCI` of the block "color only pipeline" of preparePipelines. -/
def pipelineCIColorOnly (d : Driver) (ex : VulkanExample) : VkGraphicsPipelineCreateInfo :=
  let inputAssemblyState : VkPipelineInputAssemblyStateCreateInfo :=
    ⟨.VK_PRIMITIVE_TOPOLOGY_TRIANGLE_LIST, 0, false⟩
  let rasterizationState : VkPipelineRasterizationStateCreateInfo :=
    ⟨.VK_POLYGON_MODE_FILL, .VK_CULL_MODE_NONE, .VK_FRONT_FACE_COUNTER_CLOCKWISE, 0⟩
  let blendAttachmentState : VkPipelineColorBlendAttachmentState := ⟨0xf, false⟩
  let colorBlendState : VkPipelineColorBlendStateCreateInfo := ⟨1, some blendAttachmentState⟩
  let depthStencilState : VkPipelineDepthStencilStateCreateInfo :=
    ⟨false, false, .VK_COMPARE_OP_NEVER⟩
  let viewportState : VkPipelineViewportStateCreateInfo := ⟨1, 1, 0⟩
  let multisampleState : VkPipelineMultisampleStateCreateInfo := ⟨.VK_SAMPLE_COUNT_1_BIT, 0⟩
  let dynamicStateEnables : List VkDynamicState :=
    [.VK_DYNAMIC_STATE_VIEWPORT, .VK_DYNAMIC_STATE_SCISSOR]
  let dynamicState : VkPipelineDynamicStateCreateInfo := ⟨dynamicStateEnables⟩
  let shaderStages := shaderStagesBoth d
  let pipelineRenderingCreateInfo : VkPipelineRenderingCreateInfoKHR :=
    { colorAttachmentCount := 1
      pColorAttachmentFormats := some ex.swapChain.colorFormat
      depthAttachmentFormat := VK_FORMAT_UNDEFINED
      stencilAttachmentFormat := VK_FORMAT_UNDEFINED }
  { layout := ex.pipelineLayout
    pInputAssemblyState := inputAssemblyState
    pRasterizationState := rasterizationState
    pColorBlendState := colorBlendState
    pMultisampleState := multisampleState
    pViewportState := viewportState
    pDepthStencilState := depthStencilState
    pDynamicState := dynamicState
    stageCount := shaderStages.length
    pStages := shaderStages
    pVertexInputState := [.Position, .Normal, .UV]
    pNext := some pipelineRenderingCreateInfo
    renderPass := none }

/-- The record `pipelineCI` of the block "depth only pipeline" of preparePipelines. -/
def pipelineCIDepthOnly (d : Driver) (ex : VulkanExample) : VkGraphicsPipelineCreateInfo :=
  let inputAssemblyState : VkPipelineInputAssemblyStateCreateInfo :=
    ⟨.VK_PRIMITIVE_TOPOLOGY_TRIANGLE_LIST, 0, false⟩
  let rasterizationState : VkPipelineRasterizationStateCreateInfo :=
    ⟨.VK_POLYGON_MODE_FILL, .VK_CULL_MODE_NONE, .VK_FRONT_FACE_COUNTER_CLOCKWISE, 0⟩
  let blendAttachmentState : VkPipelineColorBlendAttachmentState := ⟨0xf, false⟩
  let colorBlendState : VkPipelineColorBlendStateCreateInfo := ⟨0, some blendAttachmentState⟩
  let depthStencilState : VkPipelineDepthStencilStateCreateInfo :=
    ⟨true, true, .VK_COMPARE_OP_LESS_OR_EQUAL⟩
  let viewportState : VkPipelineViewportStateCreateInfo := ⟨1, 1, 0⟩
  let multisampleState : VkPipelineMultisampleStateCreateInfo := ⟨.VK_SAMPLE_COUNT_1_BIT, 0⟩
  let dynamicStateEnables : List VkDynamicState :=
    [.VK_DYNAMIC_STATE_VIEWPORT, .VK_DYNAMIC_STATE_SCISSOR]
  let dynamicState : VkPipelineDynamicStateCreateInfo := ⟨dynamicStateEnables⟩
  let shaderStages := shaderStagesVertex d
  let pipelineRenderingCreateInfo : VkPipelineRenderingCreateInfoKHR :=
    { colorAttachmentCount := 0
      pColorAttachmentFormats := none
      depthAttachmentFormat := ex.depthFormat
      stencilAttachmentFormat := ex.depthFormat }
  { layout := ex.pipelineLayout
    pInputAssemblyState := inputAssemblyState
    pRasterizationState := rasterizationState
    pColorBlendState := colorBlendState
    pMultisampleState := multisampleState
    pViewportState := viewportState
    pDepthStencilState := depthStencilState
    pDynamicState := dynamicState
    stageCount := shaderStages.length
    pStages := shaderStages
    pVertexInputState := [.Position, .Normal, .UV]
    pNext := some pipelineRenderingCreateInfo
    renderPass := none }

/-- The method `preparePipelines()`: three creation records, three pipeline objects. -/
def preparePipelines (d : Driver) (ex : VulkanExample) : Run VulkanExample := do
  -- full pipeline
  call (.loadShader (d.getShadersPath ++ "dynamicrendering/texture.vert.spv") .VK_SHADER_STAGE_VERTEX_BIT)
  call (.loadShader (d.getShadersPath ++ "dynamicrendering/texture.frag.spv") .VK_SHADER_STAGE_FRAGMENT_BIT)
  VK_CHECK_RESULT (.vkCreateGraphicsPipelines ex.pipelineCache 1 (pipelineCIFull d ex))
    (d.vkCreateGraphicsPipelines (pipelineCIFull d ex))
  let ex : VulkanExample := { ex with pipelineFull := some (pipelineCIFull d ex) }
  -- color only pipeline
  call (.loadShader (d.getShadersPath ++ "dynamicrendering/texture.vert.spv") .VK_SHADER_STAGE_VERTEX_BIT)
  call (.loadShader (d.getShadersPath ++ "dynamicrendering/texture.frag.spv") .VK_SHADER_STAGE_FRAGMENT_BIT)
  VK_CHECK_RESULT (.vkCreateGraphicsPipelines ex.pipelineCache 1 (pipelineCIColorOnly d ex))
    (d.vkCreateGraphicsPipelines (pipelineCIColorOnly d ex))
  let ex : VulkanExample := { ex with pipelineColorOnly := some (pipelineCIColorOnly d ex) }
  -- depth only pipeline
  call (.loadShader (d.getShadersPath ++ "dynamicrendering/texture.vert.spv") .VK_SHADER_STAGE_VERTEX_BIT)
  VK_CHECK_RESULT (.vkCreateGraphicsPipelines ex.pipelineCache 1 (pipelineCIDepthOnly d ex))
    (d.vkCreateGraphicsPipelines (pipelineCIDepthOnly d ex))
  pure { ex with pipelineDepthOnly := some (pipelineCIDepthOnly d ex) }

/-- The method `updateUniformBuffers()`. Copying through a null `mapped` pointer has no
defined behaviour. -/
def updateUniformBuffers (ex : VulkanExample) : Run VulkanExample := do
  let ex : VulkanExample := { ex with uniformData := { ex.uniformData with
    projection := ex.camera.matrices.perspective } }
  let ex : VulkanExample := { ex with uniformData := { ex.uniformData with
    modelView := ex.camera.matrices.view } }
  let ex : VulkanExample := { ex with uniformData := { ex.uniformData with
    viewPos := ex.camera.viewPos } }
  match ex.uniformBuffer.mapped with
  | none => undefinedBehaviour
  | some _ =>
    call (.memcpy ex.uniformData)
    pure { ex with uniformBuffer := { ex.uniformBuffer with mapped := some ex.uniformData } }

/-- The method `prepareUniformBuffers()`. -/
def prepareUniformBuffers (d : Driver) (ex : VulkanExample) : Run VulkanExample := do
  let created := d.createBuffer [.VK_BUFFER_USAGE_UNIFORM_BUFFER_BIT]
    [.VK_MEMORY_PROPERTY_HOST_VISIBLE_BIT, .VK_MEMORY_PROPERTY_HOST_COHERENT_BIT] ex.uniformData
  VK_CHECK_RESULT (.createBuffer [.VK_BUFFER_USAGE_UNIFORM_BUFFER_BIT]
    [.VK_MEMORY_PROPERTY_HOST_VISIBLE_BIT, .VK_MEMORY_PROPERTY_HOST_COHERENT_BIT] ex.uniformData)
    created.1
  let ex : VulkanExample := { ex with uniformBuffer := created.2 }
  VK_CHECK_RESULT (.bufferMap ex.uniformBuffer.buffer) (d.bufferMap ex.uniformBuffer).1
  let ex : VulkanExample := { ex with uniformBuffer := (d.bufferMap ex.uniformBuffer).2 }
  updateUniformBuffers ex

/-- The method `loadAssets()`. -/
def loadAssets (d : Driver) (ex : VulkanExample) : Run Unit := do
  let glTFLoadingFlags : List FileLoadingFlags :=
    [.PreTransformVertices, .PreMultiplyVertexColors, .FlipY]
  call (.modelLoadFromFile (d.getAssetPath ++ "models/voyager.gltf") glTFLoadingFlags ex.queue)

/-- The method `prepare()`. -/
def prepare (d : Driver) (ex : VulkanExample) : Run VulkanExample := do
  let base ← harnessCall .basePrepare (d.basePrepare ex.toVulkanExampleBase)
  let ex : VulkanExample := { ex with toVulkanExampleBase := base }
  call (.vkGetDeviceProcAddr "vkCmdBeginRenderingKHR")
  call (.vkGetDeviceProcAddr "vkCmdEndRenderingKHR")
  loadAssets d ex
  let ex ← prepareUniformBuffers d ex
  let ex ← setupDescriptorSetLayout d ex
  let ex ← preparePipelines d ex
  let ex ← setupDescriptorPool d ex
  let ex ← setupDescriptorSet d ex
  buildCommandBuffers d ex
  pure { ex with prepared := true }

/-- The virtual method `render()` (the per frame entry point; the source overloads the
name `render`). -/
def renderFrame (d : Driver) (ex : VulkanExample) : Run VulkanExample :=
  if !ex.prepared then pure ex
  else draw d ex

/-- The virtual method `viewChanged()`. -/
def viewChanged (ex : VulkanExample) : Run VulkanExample :=
  updateUniformBuffers ex

/-- What happens to the sample after `prepare()`: the harness calls `viewChanged()`, it
calls `render()` (the driver and the harness answer as `d` says during that frame), or
it changes members of its own base class (the camera, for one) between two calls. -/
inductive Callback where
  | viewChanged
  | render (d : Driver)
  | harnessUpdate (base : VulkanExampleBase)

/-- One step of the life of the sample after `prepare()`. -/
def Callback.run (ex : VulkanExample) : Callback → Run VulkanExample
  | .viewChanged => DynamicRendering.viewChanged ex
  | .render d => renderFrame d ex
  | .harnessUpdate base => pure { ex with toVulkanExampleBase := base }

/-- A sequence of steps, stopping at the first one that aborts. -/
def runCallbacks (ex : VulkanExample) : List Callback → Run VulkanExample
  | [] => pure ex
  | cb :: rest => do
    let ex ← cb.run ex
    runCallbacks ex rest

/-! ## Reading a trace -/

/-- Is the call a begin-rendering command. -/
def Call.isBeginRendering : Call → Bool
  | .vkCmdBeginRenderingKHR _ _ => true
  | _ => false

/-- Is the call an end-rendering command. -/
def Call.isEndRendering : Call → Bool
  | .vkCmdEndRenderingKHR _ => true
  | _ => false

/-- Is the call an image memory barrier. -/
def Call.isBarrier : Call → Bool
  | .insertImageMemoryBarrier _ _ _ _ _ _ _ _ _ => true
  | _ => false

/-- Is the call the bind of the descriptor set. -/
def Call.isBindDescriptorSets : Call → Bool
  | .vkCmdBindDescriptorSets _ _ _ _ _ _ _ => true
  | _ => false

/-- Is the call a pipeline bind. -/
def Call.isBindPipeline : Call → Bool
  | .vkCmdBindPipeline _ _ _ => true
  | _ => false

/-- Is the call the draw of the model. -/
def Call.isDraw : Call → Bool
  | .modelDraw _ _ _ => true
  | _ => false

/-- Is the call a queue submission. -/
def Call.isQueueSubmit : Call → Bool
  | .vkQueueSubmit _ _ _ _ _ => true
  | _ => false

/-- Number of rendering scopes that are open after the calls of a trace: begins minus
ends. -/
def openScopes : List Call → Int
  | [] => 0
  | c :: rest =>
    (if c.isBeginRendering then 1 else 0) - (if c.isEndRendering then 1 else 0) + openScopes rest

/-- Splits a trace into its rendering scopes. The first argument is the scope that is
open, with the calls seen in it so far; a scope is closed by the next end-rendering
command. Each scope is given by its rendering info and the calls strictly between its
begin and its end. -/
def scopesFrom : Option (VkRenderingInfoKHR × List Call) → List Call →
    List (VkRenderingInfoKHR × List Call)
  | none, [] => []
  | some s, [] => [s]
  | none, .vkCmdBeginRenderingKHR _ info :: rest => scopesFrom (some (info, [])) rest
  | none, _ :: rest => scopesFrom none rest
  | some s, .vkCmdEndRenderingKHR _ :: rest => s :: scopesFrom none rest
  | some s, c :: rest => scopesFrom (some (s.1, s.2 ++ [c])) rest

/-- The rendering scopes of a trace, in order. -/
def scopesOf (tr : List Call) : List (VkRenderingInfoKHR × List Call) := scopesFrom none tr

/-- The pipelines bound by the calls of a list. -/
def boundPipelines : List Call → List VkPipeline
  | [] => []
  | .vkCmdBindPipeline _ _ p :: rest => p :: boundPipelines rest
  | _ :: rest => boundPipelines rest

/-- The attachments that take part in a scope: the first `colorAttachmentCount` color
attachments, then the depth and the stencil attachment when the pointer is not null. -/
def attachmentsOf (info : VkRenderingInfoKHR) : List VkRenderingAttachmentInfoKHR :=
  info.pColorAttachments.toList.take info.colorAttachmentCount
    ++ info.pDepthAttachment.toList ++ info.pStencilAttachment.toList

/-- The record of the last `memcpy` into the uniform buffer among the calls of a trace. -/
def lastWrite : List Call → Option UniformData
  | [] => none
  | c :: rest =>
    match lastWrite rest with
    | some r => some r
    | none => match c with
      | .memcpy src => some src
      | _ => none

/-- The calls of a trace that are recorded into one command buffer. -/
def Call.cmdBuffer? : Call → Option VkCommandBuffer
  | .vkBeginCommandBuffer c => some c
  | .insertImageMemoryBarrier c _ _ _ _ _ _ _ _ => some c
  | .vkCmdBeginRenderingKHR c _ => some c
  | .vkCmdSetViewport c _ _ _ => some c
  | .vkCmdSetScissor c _ _ _ => some c
  | .vkCmdBindDescriptorSets c _ _ _ _ _ _ => some c
  | .vkCmdBindPipeline c _ _ => some c
  | .modelDraw c _ _ => some c
  | .vkCmdEndRenderingKHR c => some c
  | .vkEndCommandBuffer c => some c
  | _ => none

/-- The calls of a trace that name the command buffer `cmdBuffer`. -/
def recordedInto (cmdBuffer : VkCommandBuffer) (tr : List Call) : List Call :=
  tr.filter (fun c => c.cmdBuffer? = some cmdBuffer)

/-- The images named by the barriers of a trace. -/
def barrierImages : List Call → List VkImage
  | [] => []
  | .insertImageMemoryBarrier _ image _ _ _ _ _ _ _ :: rest => image :: barrierImages rest
  | _ :: rest => barrierImages rest

/-- The image views named by the attachments of the rendering scopes of a trace. -/
def attachmentViews : List Call → List VkImageView
  | [] => []
  | .vkCmdBeginRenderingKHR _ info :: rest =>
    (attachmentsOf info).map (fun a => a.imageView) ++ attachmentViews rest
  | _ :: rest => attachmentViews rest

/-- The attachment subset a pipeline was created for agrees with the subset a scope
declares: same color attachment count, a defined depth format exactly when the scope has
a depth attachment, a defined stencil format exactly when it has a stencil attachment. -/
def attachmentsMatch (pipeline : VkPipeline) (info : VkRenderingInfoKHR) : Prop :=
  ∃ ci rci, pipeline = some ci ∧ ci.pNext = some rci ∧
    rci.colorAttachmentCount = info.colorAttachmentCount ∧
    (rci.depthAttachmentFormat ≠ VK_FORMAT_UNDEFINED ↔ info.pDepthAttachment ≠ none) ∧
    (rci.stencilAttachmentFormat ≠ VK_FORMAT_UNDEFINED ↔ info.pStencilAttachment ≠ none)

/-- Is the call a write into the mapped uniform buffer. -/
def Call.isUniformWrite : Call → Bool
  | .memcpy _ => true
  | _ => false

/-- A call that neither submits to the queue nor writes the uniform buffer. -/
def Call.isQuiet (c : Call) : Bool := !c.isQueueSubmit && !c.isUniformWrite

/-- Every queue submission of the trace sees, as the content of the mapped uniform
buffer, the record of the last write that comes before it in the trace. -/
def SubmitsSeeLastWrite (tr : List Call) : Prop :=
  ∀ (n : Nat) (q : VkQueue) (cnt : Nat) (si : VkSubmitInfo) (f : VkFence)
    (mem : Option UniformData),
    tr[n]? = some (.vkQueueSubmit q cnt si f mem) →
    ∃ r, mem = some r ∧ lastWrite (tr.take n) = some r

/-- A step that makes only quiet calls and, when it returns, returns a state whose
uniform buffer member is `ub`. -/
def Keeps (x : Run VulkanExample) (ub : Buffer) : Prop :=
  (∀ cl ∈ x.trace, cl.isQuiet = true) ∧ ∀ ex2, x.result = .ok ex2 → ex2.uniformBuffer = ub

/-- A step that submits nothing and, when it returns, returns a state whose uniform
buffer is mapped and holds the record of the last write of the step. -/
def Establishes (x : Run VulkanExample) : Prop :=
  (∀ cl ∈ x.trace, cl.isQueueSubmit = false) ∧
  ∀ ex2, x.result = .ok ex2 →
    ∃ r, ex2.uniformBuffer.mapped = some r ∧ lastWrite x.trace = some r

/-- The image layouts tracked over a trace: `layouts` gives the layout of every image
before the trace, and each barrier of the trace sets the layout of the image it names to
its new layout. -/
def trackLayouts (layouts : VkImage → VkImageLayout) : List Call → VkImage → VkImageLayout
  | [] => layouts
  | .insertImageMemoryBarrier _ image _ _ _ newImageLayout _ _ _ :: rest =>
    trackLayouts (fun i => if i = image then newImageLayout else layouts i) rest
  | _ :: rest => trackLayouts layouts rest

/-- One of the assigned elements of the stage array of a creation record is a fragment
stage. -/
def hasFragmentStage (ci : VkGraphicsPipelineCreateInfo) : Bool :=
  ci.pStages.any (fun slot =>
    match slot with
    | some st => decide (st.stage = .VK_SHADER_STAGE_FRAGMENT_BIT)
    | none => false)

/-- The number of elements of the stage array of a creation record that were assigned a
stage. -/
def filledStages (ci : VkGraphicsPipelineCreateInfo) : Nat :=
  (ci.pStages.filter Option.isSome).length

/-- Two creation records are the same apart from the output attachments they declare. -/
def sameButAttachments (a b : VkGraphicsPipelineCreateInfo) : Prop :=
  { a with pNext := none } = { b with pNext := none }

/-! ## Sample data -/

/-- A driver and harness that answer every call with success; the harness functions
leave the base members as they are. -/
def okDriver : Driver where
  vkBeginCommandBuffer := fun _ => VK_SUCCESS
  vkEndCommandBuffer := fun _ => VK_SUCCESS
  vkQueueSubmit := fun _ _ _ _ => VK_SUCCESS
  prepareFrame := fun b => .ok b
  submitFrame := fun b => .ok b
  getShadersPath := "shaders/"
  getAssetPath := "assets/"
  loadShader := fun _ stage => ⟨stage, 1, "main"⟩
  vkCreateGraphicsPipelines := fun _ => VK_SUCCESS
  createBuffer := fun _ _ data => (VK_SUCCESS, ⟨1, some data⟩)
  bufferMap := fun b => (VK_SUCCESS, b)
  basePrepare := fun b => .ok b
  vkCreateDescriptorPool := (VK_SUCCESS, 1)
  vkCreateDescriptorSetLayout := (VK_SUCCESS, 1)
  descriptorSetLayoutImage := 2
  vkCreatePipelineLayout := fun _ => (VK_SUCCESS, 1)
  vkAllocateDescriptorSets := fun _ _ => (VK_SUCCESS, 1)

/-- A driver whose queue submission fails with code -4, everything else as okDriver. -/
def lostDriver : Driver := { okDriver with vkQueueSubmit := fun _ _ _ _ => -4 }

/-- A state of the sample with two swap chain slots and two command buffers. -/
def demoExample : VulkanExample where
  width := 1280
  height := 720
  camera := ⟨⟨[1, 2], [3, 4]⟩, [5]⟩
  prepared := true
  currentBuffer := 1
  drawCmdBuffers := [101, 102]
  swapChain := ⟨44, [⟨11, 21⟩, ⟨12, 22⟩]⟩
  depthStencil := ⟨30, 40⟩
  depthFormat := 130
  submitInfo := ⟨[7], [8], 0, []⟩
  queue := 9
  pipelineCache := 3
  descriptorPool := 0
  uniformData := ⟨[], [], []⟩
  uniformBuffer := ⟨0, none⟩
  pipelineLayout := 5
  pipelineFull := none
  pipelineColorOnly := none
  pipelineDepthOnly := none
  descriptorSet := 6
  descriptorSetLayout := 0

/-- The image behind each view of the sample data: view 21 is a view of image 11, view
22 of image 12, every other view of the depth/stencil image 30. -/
def demoImageOf : VkImageView → VkImage :=
  fun v => if v = 21 then 11 else if v = 22 then 12 else 30

/-- The state the sample data is in after `prepare()`. -/
def demoPrepared : VulkanExample :=
  match (prepare okDriver demoExample).result with
  | .ok ex => ex
  | .error _ => demoExample

/-- The harness moves the camera, tells the sample, and asks for a frame. -/
def demoCallbacks : List Callback :=
  [ .harnessUpdate { demoPrepared.toVulkanExampleBase with camera := ⟨⟨[9], [8]⟩, [7]⟩ },
    .viewChanged,
    .render okDriver ]

/-! ## Facts about runs -/

theorem forall_getElem?_of_enum {α : Type} (l : List α) (P : Nat → α → Prop)
    (h : ∀ p ∈ l.enum, P p.1 p.2) : ∀ n c, l[n]? = some c → P n c := by
  intro n c hn
  exact h (n, c) (List.mk_mem_enum_iff_getElem?.mpr hn)

/-- The calls recorded by `render`, and that it always returns. -/
theorem render_run (ex : VulkanExample) (layout : VkPipelineLayout) (pipeline : VkPipeline)
    (info : VkRenderingInfoKHR) (cmd : VkCommandBuffer) :
    render ex layout pipeline info cmd =
      ⟨[ .vkCmdBeginRenderingKHR cmd info,
         .vkCmdSetViewport cmd 0 1 ⟨ex.width, ex.height, 0, 1⟩,
         .vkCmdSetScissor cmd 0 1 ⟨0, 0, ex.width, ex.height⟩,
         .vkCmdBindDescriptorSets cmd .VK_PIPELINE_BIND_POINT_GRAPHICS ex.pipelineLayout 0 1
           ex.descriptorSet 0,
         .vkCmdBindPipeline cmd .VK_PIPELINE_BIND_POINT_GRAPHICS pipeline,
         .modelDraw cmd [.BindImages] ex.pipelineLayout,
         .vkCmdEndRenderingKHR cmd ], .ok ()⟩ := by
  simp [render, call, bind, Run.bind]

/-- The calls recorded by `buildCommandBuffer` once the command buffer could be begun. -/
theorem buildCommandBuffer_trace (d : Driver) (ex : VulkanExample) (c ds : RenderTarget)
    (cmd : VkCommandBuffer) (hb : d.vkBeginCommandBuffer cmd = VK_SUCCESS) :
    (buildCommandBuffer d ex c ds cmd).trace =
      [ .vkBeginCommandBuffer cmd,
        .insertImageMemoryBarrier cmd c.image 0 0
          .VK_IMAGE_LAYOUT_UNDEFINED .VK_IMAGE_LAYOUT_COLOR_ATTACHMENT_OPTIMAL
          [.VK_PIPELINE_STAGE_TOP_OF_PIPE_BIT] [.VK_PIPELINE_STAGE_COLOR_ATTACHMENT_OUTPUT_BIT]
          ⟨[.VK_IMAGE_ASPECT_COLOR_BIT], 0, 1, 0, 1⟩,
        .insertImageMemoryBarrier cmd ds.image 0 0
          .VK_IMAGE_LAYOUT_UNDEFINED .VK_IMAGE_LAYOUT_DEPTH_STENCIL_ATTACHMENT_OPTIMAL
          [.VK_PIPELINE_STAGE_EARLY_FRAGMENT_TESTS_BIT, .VK_PIPELINE_STAGE_LATE_FRAGMENT_TESTS_BIT]
          [.VK_PIPELINE_STAGE_EARLY_FRAGMENT_TESTS_BIT, .VK_PIPELINE_STAGE_LATE_FRAGMENT_TESTS_BIT]
          ⟨[.VK_IMAGE_ASPECT_DEPTH_BIT, .VK_IMAGE_ASPECT_STENCIL_BIT], 0, 1, 0, 1⟩,
        .vkCmdBeginRenderingKHR cmd (renderingInfoDepthOnly ex ds),
        .vkCmdSetViewport cmd 0 1 ⟨ex.width, ex.height, 0, 1⟩,
        .vkCmdSetScissor cmd 0 1 ⟨0, 0, ex.width, ex.height⟩,
        .vkCmdBindDescriptorSets cmd .VK_PIPELINE_BIND_POINT_GRAPHICS ex.pipelineLayout 0 1
          ex.descriptorSet 0,
        .vkCmdBindPipeline cmd .VK_PIPELINE_BIND_POINT_GRAPHICS ex.pipelineDepthOnly,
        .modelDraw cmd [.BindImages] ex.pipelineLayout,
        .vkCmdEndRenderingKHR cmd,
        .vkCmdBeginRenderingKHR cmd (renderingInfoColorOnly ex c),
        .vkCmdSetViewport cmd 0 1 ⟨ex.width, ex.height, 0, 1⟩,
        .vkCmdSetScissor cmd 0 1 ⟨0, 0, ex.width, ex.height⟩,
        .vkCmdBindDescriptorSets cmd .VK_PIPELINE_BIND_POINT_GRAPHICS ex.pipelineLayout 0 1
          ex.descriptorSet 0,
        .vkCmdBindPipeline cmd .VK_PIPELINE_BIND_POINT_GRAPHICS ex.pipelineColorOnly,
        .modelDraw cmd [.BindImages] ex.pipelineLayout,
        .vkCmdEndRenderingKHR cmd,
        .insertImageMemoryBarrier cmd c.image 0 0
          .VK_IMAGE_LAYOUT_COLOR_ATTACHMENT_OPTIMAL .VK_IMAGE_LAYOUT_PRESENT_SRC_KHR
          [.VK_PIPELINE_STAGE_COLOR_ATTACHMENT_OUTPUT_BIT] [.VK_PIPELINE_STAGE_BOTTOM_OF_PIPE_BIT]
          ⟨[.VK_IMAGE_ASPECT_COLOR_BIT], 0, 1, 0, 1⟩,
        .vkEndCommandBuffer cmd ] := by
  simp [buildCommandBuffer, render_run, call, VK_CHECK_RESULT, bind, Run.bind, hb]
  split <;> rfl

/-- The calls recorded by `buildCommandBuffer` when the command buffer cannot be begun. -/
theorem buildCommandBuffer_trace_failed (d : Driver) (ex : VulkanExample) (c ds : RenderTarget)
    (cmd : VkCommandBuffer) (hb : ¬ d.vkBeginCommandBuffer cmd = VK_SUCCESS) :
    (buildCommandBuffer d ex c ds cmd).trace = [.vkBeginCommandBuffer cmd] := by
  simp [buildCommandBuffer, VK_CHECK_RESULT, bind, Run.bind, hb]

/-- Recording returns when the command buffer can be begun and ended. -/
theorem buildCommandBuffer_result (d : Driver) (ex : VulkanExample) (c ds : RenderTarget)
    (cmd : VkCommandBuffer) (hb : d.vkBeginCommandBuffer cmd = VK_SUCCESS)
    (he : d.vkEndCommandBuffer cmd = VK_SUCCESS) :
    (buildCommandBuffer d ex c ds cmd).result = .ok () := by
  simp [buildCommandBuffer, render_run, call, VK_CHECK_RESULT, bind, Run.bind, hb, he]

/-- The state `preparePipelines` returns when every pipeline creation succeeds. -/
theorem preparePipelines_result (d : Driver) (ex : VulkanExample)
    (hc : ∀ ci, d.vkCreateGraphicsPipelines ci = VK_SUCCESS) :
    (preparePipelines d ex).result = .ok
      { ex with
        pipelineFull := some (pipelineCIFull d ex)
        pipelineColorOnly := some (pipelineCIColorOnly d ex)
        pipelineDepthOnly := some (pipelineCIDepthOnly d ex) } := by
  simp [preparePipelines, call, VK_CHECK_RESULT, bind, Run.bind, hc, pure]
  exact ⟨rfl, rfl⟩

/-- The rendering scopes of the trace recorded by `buildCommandBuffer`. -/
theorem buildCommandBuffer_scopes (d : Driver) (ex : VulkanExample) (c ds : RenderTarget)
    (cmd : VkCommandBuffer) (hb : d.vkBeginCommandBuffer cmd = VK_SUCCESS) :
    scopesOf (buildCommandBuffer d ex c ds cmd).trace =
      [ (renderingInfoDepthOnly ex ds,
          [ .vkCmdSetViewport cmd 0 1 ⟨ex.width, ex.height, 0, 1⟩,
            .vkCmdSetScissor cmd 0 1 ⟨0, 0, ex.width, ex.height⟩,
            .vkCmdBindDescriptorSets cmd .VK_PIPELINE_BIND_POINT_GRAPHICS ex.pipelineLayout 0 1
              ex.descriptorSet 0,
            .vkCmdBindPipeline cmd .VK_PIPELINE_BIND_POINT_GRAPHICS ex.pipelineDepthOnly,
            .modelDraw cmd [.BindImages] ex.pipelineLayout ]),
        (renderingInfoColorOnly ex c,
          [ .vkCmdSetViewport cmd 0 1 ⟨ex.width, ex.height, 0, 1⟩,
            .vkCmdSetScissor cmd 0 1 ⟨0, 0, ex.width, ex.height⟩,
            .vkCmdBindDescriptorSets cmd .VK_PIPELINE_BIND_POINT_GRAPHICS ex.pipelineLayout 0 1
              ex.descriptorSet 0,
            .vkCmdBindPipeline cmd .VK_PIPELINE_BIND_POINT_GRAPHICS ex.pipelineColorOnly,
            .modelDraw cmd [.BindImages] ex.pipelineLayout ]) ] := by
  rw [buildCommandBuffer_trace d ex c ds cmd hb]
  simp [scopesOf, scopesFrom]

/-- The run of `draw` when the frame is acquired and the submission is accepted. -/
theorem draw_run_submitted (d : Driver) (ex : VulkanExample) (b : VulkanExampleBase)
    (hp : d.prepareFrame ex.toVulkanExampleBase = .ok b)
    (hq : d.vkQueueSubmit b.queue 1
      { b.submitInfo with
        commandBufferCount := 1
        pCommandBuffers := b.drawCmdBuffers.drop b.currentBuffer } VK_NULL_HANDLE = VK_SUCCESS) :
    (draw d ex).trace =
      [ .prepareFrame,
        .vkQueueSubmit b.queue 1
          { b.submitInfo with
            commandBufferCount := 1
            pCommandBuffers := b.drawCmdBuffers.drop b.currentBuffer }
          VK_NULL_HANDLE ex.uniformBuffer.mapped,
        .submitFrame ] ∧
    (draw d ex).result =
      (d.submitFrame
        { b with submitInfo := { b.submitInfo with
            commandBufferCount := 1
            pCommandBuffers := b.drawCmdBuffers.drop b.currentBuffer } }).map
        (fun b2 => { ex with toVulkanExampleBase := b2 }) := by
  simp only [draw, harnessCall, VK_CHECK_RESULT, bind, Run.bind, hp, hq, pure]
  cases hs : d.submitFrame
      { b with submitInfo := { b.submitInfo with
          commandBufferCount := 1
          pCommandBuffers := b.drawCmdBuffers.drop b.currentBuffer } } <;>
    simp [hs, Except.map]

/-- The run of `draw` when the frame is acquired and the submission is refused. -/
theorem draw_run_refused (d : Driver) (ex : VulkanExample) (b : VulkanExampleBase)
    (hp : d.prepareFrame ex.toVulkanExampleBase = .ok b)
    (hq : d.vkQueueSubmit b.queue 1
      { b.submitInfo with
        commandBufferCount := 1
        pCommandBuffers := b.drawCmdBuffers.drop b.currentBuffer } VK_NULL_HANDLE ≠ VK_SUCCESS) :
    draw d ex =
      ⟨[ .prepareFrame,
         .vkQueueSubmit b.queue 1
           { b.submitInfo with
             commandBufferCount := 1
             pCommandBuffers := b.drawCmdBuffers.drop b.currentBuffer }
           VK_NULL_HANDLE ex.uniformBuffer.mapped ],
       .error (.vkError (d.vkQueueSubmit b.queue 1
         { b.submitInfo with
           commandBufferCount := 1
           pCommandBuffers := b.drawCmdBuffers.drop b.currentBuffer } VK_NULL_HANDLE))⟩ := by
  simp [draw, harnessCall, VK_CHECK_RESULT, bind, Run.bind, hp, hq]

/-- Every call recorded by `buildCommandBuffer` names its command buffer. -/
theorem buildCommandBuffer_calls_name_cmd (d : Driver) (ex : VulkanExample) (c ds : RenderTarget)
    (cmd : VkCommandBuffer) :
    ∀ cl ∈ (buildCommandBuffer d ex c ds cmd).trace, cl.cmdBuffer? = some cmd := by
  by_cases hb : d.vkBeginCommandBuffer cmd = VK_SUCCESS
  · rw [buildCommandBuffer_trace d ex c ds cmd hb]
    simp [Call.cmdBuffer?]
  · simp [buildCommandBuffer, VK_CHECK_RESULT, bind, Run.bind, hb, Call.cmdBuffer?]

/-- One round of the loop of `buildCommandBuffers`. -/
theorem buildCommandBuffersFrom_cons (d : Driver) (ex : VulkanExample) (i : Nat)
    (cmd : VkCommandBuffer) (rest : List VkCommandBuffer) (slot : SwapChainBuffer)
    (hslot : ex.swapChain.buffers[i]? = some slot)
    (hb : d.vkBeginCommandBuffer cmd = VK_SUCCESS) (he : d.vkEndCommandBuffer cmd = VK_SUCCESS)
    (h31 : i + 1 < 2 ^ 31) :
    buildCommandBuffersFrom d ex i (cmd :: rest) =
      ⟨(buildCommandBuffer d ex ⟨slot.image, slot.view⟩
          ⟨ex.depthStencil.image, ex.depthStencil.view⟩ cmd).trace ++
        (buildCommandBuffersFrom d ex (i + 1) rest).trace,
       (buildCommandBuffersFrom d ex (i + 1) rest).result⟩ := by
  have hr := buildCommandBuffer_result d ex ⟨slot.image, slot.view⟩
    ⟨ex.depthStencil.image, ex.depthStencil.view⟩ cmd hb he
  simp only [buildCommandBuffersFrom, hslot, bind, Run.bind, hr, h31, if_true]

/-- The loop of `buildCommandBuffers`: it returns, every call names one of the command
buffers, and the calls that name the k-th of them are those of `buildCommandBuffer` for
swap chain slot i + k and the depth/stencil image of the harness. -/
theorem buildCommandBuffersFrom_recorded (d : Driver) (ex : VulkanExample) :
    ∀ (cmds : List VkCommandBuffer) (i : Nat),
      (∀ c ∈ cmds, d.vkBeginCommandBuffer c = VK_SUCCESS ∧ d.vkEndCommandBuffer c = VK_SUCCESS) →
      i + cmds.length ≤ ex.swapChain.buffers.length →
      i + cmds.length < 2 ^ 31 →
      cmds.Nodup →
      (buildCommandBuffersFrom d ex i cmds).result = .ok () ∧
      (∀ cl ∈ (buildCommandBuffersFrom d ex i cmds).trace, ∃ c ∈ cmds, cl.cmdBuffer? = some c) ∧
      ∀ (k : Nat) (cmd : VkCommandBuffer) (slot : SwapChainBuffer),
        cmds[k]? = some cmd → ex.swapChain.buffers[i + k]? = some slot →
        recordedInto cmd (buildCommandBuffersFrom d ex i cmds).trace =
          (buildCommandBuffer d ex ⟨slot.image, slot.view⟩
            ⟨ex.depthStencil.image, ex.depthStencil.view⟩ cmd).trace := by
  intro cmds
  induction cmds with
  | nil =>
    intro i _ _ _ _
    refine ⟨rfl, ?_, ?_⟩
    · intro cl hcl
      simp [buildCommandBuffersFrom, pure] at hcl
    · intro k cmd slot hk
      simp at hk
  | cons c0 rest ih =>
    intro i hok hlen h31 hnd
    have hlen1 : i + 1 + rest.length ≤ ex.swapChain.buffers.length := by
      simp only [List.length_cons] at hlen; omega
    have h31r : i + 1 + rest.length < 2 ^ 31 := by
      simp only [List.length_cons] at h31; omega
    have hi : i < ex.swapChain.buffers.length := by omega
    have hnd2 := List.nodup_cons.mp hnd
    obtain ⟨ihr, ihn, ihk⟩ := ih (i + 1) (fun c hc => hok c (List.mem_cons_of_mem _ hc))
      hlen1 h31r hnd2.2
    have hc0 := hok c0 (List.mem_cons_self _ _)
    have hslot0 : ex.swapChain.buffers[i]? = some ex.swapChain.buffers[i] :=
      List.getElem?_eq_getElem hi
    rw [buildCommandBuffersFrom_cons d ex i c0 rest _ hslot0 hc0.1 hc0.2 (by omega)]
    refine ⟨ihr, ?_, ?_⟩
    · intro cl hcl
      rcases List.mem_append.mp hcl with h | h
      · exact ⟨c0, List.mem_cons_self _ _, buildCommandBuffer_calls_name_cmd _ _ _ _ _ cl h⟩
      · obtain ⟨c, hc, hcc⟩ := ihn cl h
        exact ⟨c, List.mem_cons_of_mem _ hc, hcc⟩
    · intro k cmd slot hk hs
      simp only [recordedInto, List.filter_append]
      cases k with
      | zero =>
        simp only [List.getElem?_cons_zero, Option.some.injEq] at hk
        subst hk
        simp only [Nat.add_zero] at hs
        rw [hslot0] at hs
        simp only [Option.some.injEq] at hs
        subst hs
        have h1 : List.filter (fun cl => decide (cl.cmdBuffer? = some c0))
            (buildCommandBuffer d ex ⟨ex.swapChain.buffers[i].image, ex.swapChain.buffers[i].view⟩
              ⟨ex.depthStencil.image, ex.depthStencil.view⟩ c0).trace =
            (buildCommandBuffer d ex ⟨ex.swapChain.buffers[i].image, ex.swapChain.buffers[i].view⟩
              ⟨ex.depthStencil.image, ex.depthStencil.view⟩ c0).trace := by
          rw [List.filter_eq_self]
          intro cl hcl
          simp [buildCommandBuffer_calls_name_cmd _ _ _ _ _ cl hcl]
        have h2 : List.filter (fun cl => decide (cl.cmdBuffer? = some c0))
            (buildCommandBuffersFrom d ex (i + 1) rest).trace = [] := by
          rw [List.filter_eq_nil_iff]
          intro cl hcl
          obtain ⟨c, hc, hcc⟩ := ihn cl hcl
          have : c ≠ c0 := fun h => hnd2.1 (h ▸ hc)
          simp [hcc, this]
        rw [h1, h2, List.append_nil]
      | succ k =>
        simp only [List.getElem?_cons_succ] at hk
        have hmem : cmd ∈ rest := List.getElem?_mem hk
        have hne : c0 ≠ cmd := fun h => hnd2.1 (h ▸ hmem)
        have h1 : List.filter (fun cl => decide (cl.cmdBuffer? = some cmd))
            (buildCommandBuffer d ex ⟨ex.swapChain.buffers[i].image, ex.swapChain.buffers[i].view⟩
              ⟨ex.depthStencil.image, ex.depthStencil.view⟩ c0).trace = [] := by
          rw [List.filter_eq_nil_iff]
          intro cl hcl
          simp [buildCommandBuffer_calls_name_cmd _ _ _ _ _ cl hcl, hne]
        rw [h1, List.nil_append]
        have := ihk k cmd slot hk (by rw [← hs]; congr 1; omega)
        simpa [recordedInto] using this

/-! ### Sequencing -/

theorem Run.bind_ok {σ τ : Type} {x : Run σ} {f : σ → Run τ} {b : τ}
    (h : (x >>= f).result = .ok b) :
    ∃ a, x.result = .ok a ∧ (f a).result = .ok b ∧ (x >>= f).trace = x.trace ++ (f a).trace := by
  change (Run.bind x f).result = .ok b at h
  change ∃ a, x.result = .ok a ∧ (f a).result = .ok b ∧ (Run.bind x f).trace = x.trace ++ (f a).trace
  unfold Run.bind at h ⊢
  cases hx : x.result with
  | error e => simp [hx] at h
  | ok a => exact ⟨a, rfl, by simpa [hx] using h, by simp [hx]⟩

theorem Run.mem_trace_bind {σ τ : Type} {x : Run σ} {f : σ → Run τ} {cl : Call}
    (h : cl ∈ (x >>= f).trace) :
    cl ∈ x.trace ∨ ∃ a, x.result = .ok a ∧ cl ∈ (f a).trace := by
  change cl ∈ (Run.bind x f).trace at h
  unfold Run.bind at h
  cases hx : x.result with
  | error e => left; simpa [hx] using h
  | ok a =>
    simp only [hx, List.mem_append] at h
    rcases h with h | h
    · exact Or.inl h
    · exact Or.inr ⟨a, rfl, h⟩

/-! ### The last write of a trace -/

theorem lastWrite_append (A B : List Call) :
    lastWrite (A ++ B) = match lastWrite B with
      | some r => some r
      | none => lastWrite A := by
  induction A with
  | nil => cases h : lastWrite B <;> simp [lastWrite, h]
  | cons a A ih =>
    rw [List.cons_append]
    simp only [lastWrite]
    rw [ih]
    cases h : lastWrite B <;> simp

theorem lastWrite_quiet (tr : List Call) (h : ∀ cl ∈ tr, cl.isQuiet = true) :
    lastWrite tr = none := by
  induction tr with
  | nil => rfl
  | cons a tr ih =>
    have ha := h a (List.mem_cons_self _ _)
    simp only [lastWrite, ih (fun cl hcl => h cl (List.mem_cons_of_mem _ hcl))]
    cases a <;> simp_all [Call.isQuiet, Call.isUniformWrite]

theorem lastWrite_append_quiet (A B : List Call) (h : ∀ cl ∈ B, cl.isQuiet = true) :
    lastWrite (A ++ B) = lastWrite A := by
  rw [lastWrite_append, lastWrite_quiet B h]

theorem submitsSeeLastWrite_append (A B : List Call) (hA : SubmitsSeeLastWrite A)
    (hB : ∀ (n : Nat) (q : VkQueue) (cnt : Nat) (si : VkSubmitInfo) (f : VkFence)
      (mem : Option UniformData), B[n]? = some (.vkQueueSubmit q cnt si f mem) →
      ∃ r, mem = some r ∧ lastWrite (A ++ B.take n) = some r) :
    SubmitsSeeLastWrite (A ++ B) := by
  intro n q cnt si f mem hn
  rcases Nat.lt_or_ge n A.length with h | h
  · rw [List.getElem?_append_left h] at hn
    rw [List.take_append_of_le_length (Nat.le_of_lt h)]
    exact hA n q cnt si f mem hn
  · rw [List.getElem?_append_right h] at hn
    obtain ⟨r, hr, hl⟩ := hB (n - A.length) q cnt si f mem hn
    refine ⟨r, hr, ?_⟩
    rw [List.take_append_eq_append_take, List.take_of_length_le h]
    exact hl

theorem submitsSeeLastWrite_append_quiet (A B : List Call) (hA : SubmitsSeeLastWrite A)
    (h : ∀ cl ∈ B, cl.isQueueSubmit = false) : SubmitsSeeLastWrite (A ++ B) := by
  apply submitsSeeLastWrite_append A B hA
  intro n q cnt si f mem hn
  have := h _ (List.getElem?_mem hn)
  simp [Call.isQueueSubmit] at this

theorem isQueueSubmit_of_isQuiet {cl : Call} (h : cl.isQuiet = true) : cl.isQueueSubmit = false := by
  cases cl <;> simp_all [Call.isQuiet, Call.isQueueSubmit]

theorem isQuiet_of_cmdBuffer {cl : Call} {c : VkCommandBuffer} (h : cl.cmdBuffer? = some c) :
    cl.isQuiet = true := by
  cases cl <;> simp_all [Call.isQuiet, Call.isQueueSubmit, Call.isUniformWrite, Call.cmdBuffer?]

/-! ### Steps that keep or establish the uniform buffer -/

theorem keeps_bind {x : Run VulkanExample} {f : VulkanExample → Run VulkanExample} {ub : Buffer}
    (hx : Keeps x ub) (hf : ∀ a, Keeps (f a) a.uniformBuffer) : Keeps (x >>= f) ub := by
  constructor
  · intro cl hcl
    rcases Run.mem_trace_bind hcl with h | ⟨a, _, h⟩
    · exact hx.1 cl h
    · exact (hf a).1 cl h
  · intro ex2 h2
    obtain ⟨a, ha, hfa, _⟩ := Run.bind_ok h2
    rw [(hf a).2 ex2 hfa, hx.2 a ha]

theorem keeps_quiet_bind {σ : Type} {x : Run σ} {f : σ → Run VulkanExample} {ub : Buffer}
    (hx : ∀ cl ∈ x.trace, cl.isQuiet = true) (hf : ∀ a, Keeps (f a) ub) : Keeps (x >>= f) ub := by
  constructor
  · intro cl hcl
    rcases Run.mem_trace_bind hcl with h | ⟨a, _, h⟩
    · exact hx cl h
    · exact (hf a).1 cl h
  · intro ex2 h2
    obtain ⟨a, _, hfa, _⟩ := Run.bind_ok h2
    exact (hf a).2 ex2 hfa

theorem establishes_quiet_bind {σ : Type} {x : Run σ} {f : σ → Run VulkanExample}
    (hx : ∀ cl ∈ x.trace, cl.isQuiet = true) (hf : ∀ a, Establishes (f a)) :
    Establishes (x >>= f) := by
  constructor
  · intro cl hcl
    rcases Run.mem_trace_bind hcl with h | ⟨a, _, h⟩
    · exact isQueueSubmit_of_isQuiet (hx cl h)
    · exact (hf a).1 cl h
  · intro ex2 h2
    obtain ⟨a, _, hfa, htr⟩ := Run.bind_ok h2
    obtain ⟨r, hr, hl⟩ := (hf a).2 ex2 hfa
    refine ⟨r, hr, ?_⟩
    rw [htr, lastWrite_append, hl]

theorem establishes_bind_keeps {x : Run VulkanExample} {f : VulkanExample → Run VulkanExample}
    (hx : Establishes x) (hf : ∀ a, Keeps (f a) a.uniformBuffer) : Establishes (x >>= f) := by
  constructor
  · intro cl hcl
    rcases Run.mem_trace_bind hcl with h | ⟨a, _, h⟩
    · exact hx.1 cl h
    · exact isQueueSubmit_of_isQuiet ((hf a).1 cl h)
  · intro ex2 h2
    obtain ⟨a, ha, hfa, htr⟩ := Run.bind_ok h2
    obtain ⟨r, hr, hl⟩ := hx.2 a ha
    refine ⟨r, ?_, ?_⟩
    · rw [(hf a).2 ex2 hfa, hr]
    · rw [htr, lastWrite_append_quiet _ _ (hf a).1, hl]

/-- What `updateUniformBuffers` does when the buffer is mapped. -/
theorem updateUniformBuffers_mapped (ex : VulkanExample) (r : UniformData)
    (h : ex.uniformBuffer.mapped = some r) :
    updateUniformBuffers ex =
      ⟨[.memcpy ⟨ex.camera.matrices.perspective, ex.camera.matrices.view, ex.camera.viewPos⟩],
       .ok { ex with
         uniformData := ⟨ex.camera.matrices.perspective, ex.camera.matrices.view, ex.camera.viewPos⟩
         uniformBuffer := { ex.uniformBuffer with
           mapped := some ⟨ex.camera.matrices.perspective, ex.camera.matrices.view,
             ex.camera.viewPos⟩ } }⟩ := by
  simp [updateUniformBuffers, h, call, bind, Run.bind, pure]

/-- What `updateUniformBuffers` does when the buffer is not mapped. -/
theorem updateUniformBuffers_unmapped (ex : VulkanExample) (h : ex.uniformBuffer.mapped = none) :
    updateUniformBuffers ex = ⟨[], .error .undefinedBehaviour⟩ := by
  simp [updateUniformBuffers, h, undefinedBehaviour]

theorem updateUniformBuffers_establishes (ex : VulkanExample) :
    Establishes (updateUniformBuffers ex) := by
  cases h : ex.uniformBuffer.mapped with
  | none =>
    rw [updateUniformBuffers_unmapped ex h]
    exact ⟨by simp, by simp⟩
  | some r =>
    rw [updateUniformBuffers_mapped ex r h]
    refine ⟨by simp [Call.isQueueSubmit], ?_⟩
    intro ex2 h2
    simp only [Except.ok.injEq] at h2
    subst h2
    exact ⟨_, rfl, by simp [lastWrite]⟩

theorem prepareUniformBuffers_establishes (d : Driver) (ex : VulkanExample) :
    Establishes (prepareUniformBuffers d ex) := by
  unfold prepareUniformBuffers
  apply establishes_quiet_bind
  · intro cl hcl
    simp only [VK_CHECK_RESULT] at hcl
    split at hcl <;> simp at hcl <;> subst hcl <;> rfl
  · intro _
    apply establishes_quiet_bind
    · intro cl hcl
      simp only [VK_CHECK_RESULT] at hcl
      split at hcl <;> simp at hcl <;> subst hcl <;> rfl
    · intro _
      exact updateUniformBuffers_establishes _

theorem quiet_VK_CHECK_RESULT (c : Call) (res : VkResult) (hc : c.isQuiet = true) :
    ∀ cl ∈ (VK_CHECK_RESULT c res).trace, cl.isQuiet = true := by
  intro cl hcl
  simp only [VK_CHECK_RESULT] at hcl
  split at hcl <;> simp at hcl <;> subst hcl <;> exact hc

theorem quiet_call (c : Call) (hc : c.isQuiet = true) :
    ∀ cl ∈ (call c).trace, cl.isQuiet = true := by
  intro cl hcl
  simp only [call, List.mem_singleton] at hcl
  subst hcl
  exact hc

theorem quiet_harnessCall {σ : Type} (c : Call) (r : Except Abort σ) (hc : c.isQuiet = true) :
    ∀ cl ∈ (harnessCall c r).trace, cl.isQuiet = true := by
  intro cl hcl
  simp only [harnessCall, List.mem_singleton] at hcl
  subst hcl
  exact hc

theorem quiet_bind {σ τ : Type} {x : Run σ} {f : σ → Run τ}
    (hx : ∀ cl ∈ x.trace, cl.isQuiet = true) (hf : ∀ a, ∀ cl ∈ (f a).trace, cl.isQuiet = true) :
    ∀ cl ∈ (x >>= f).trace, cl.isQuiet = true := by
  intro cl hcl
  rcases Run.mem_trace_bind hcl with h | ⟨a, _, h⟩
  · exact hx cl h
  · exact hf a cl h

theorem keeps_pure (a : VulkanExample) (ub : Buffer) (h : a.uniformBuffer = ub) :
    Keeps (pure a) ub := by
  constructor
  · intro cl hcl
    cases hcl
  · intro ex2 h2
    cases h2
    exact h

theorem setupDescriptorSetLayout_keeps (d : Driver) (ex : VulkanExample) :
    Keeps (setupDescriptorSetLayout d ex) ex.uniformBuffer := by
  unfold setupDescriptorSetLayout
  refine keeps_quiet_bind (quiet_VK_CHECK_RESULT _ _ ?_) ?_
  · rfl
  intro _
  refine keeps_quiet_bind (quiet_VK_CHECK_RESULT _ _ ?_) ?_
  · rfl
  intro _
  exact keeps_pure _ _ rfl

theorem setupDescriptorPool_keeps (d : Driver) (ex : VulkanExample) :
    Keeps (setupDescriptorPool d ex) ex.uniformBuffer := by
  unfold setupDescriptorPool
  refine keeps_quiet_bind (quiet_VK_CHECK_RESULT _ _ ?_) ?_
  · rfl
  intro _
  exact keeps_pure _ _ rfl

theorem setupDescriptorSet_keeps (d : Driver) (ex : VulkanExample) :
    Keeps (setupDescriptorSet d ex) ex.uniformBuffer := by
  unfold setupDescriptorSet
  refine keeps_quiet_bind (quiet_VK_CHECK_RESULT _ _ ?_) ?_
  · rfl
  intro _
  refine keeps_quiet_bind (quiet_call _ ?_) ?_
  · rfl
  intro _
  exact keeps_pure _ _ rfl

theorem preparePipelines_keeps (d : Driver) (ex : VulkanExample) :
    Keeps (preparePipelines d ex) ex.uniformBuffer := by
  unfold preparePipelines
  refine keeps_quiet_bind (quiet_call _ ?_) ?_
  · rfl
  intro _
  refine keeps_quiet_bind (quiet_call _ ?_) ?_
  · rfl
  intro _
  refine keeps_quiet_bind (quiet_VK_CHECK_RESULT _ _ ?_) ?_
  · rfl
  intro _
  refine keeps_quiet_bind (quiet_call _ ?_) ?_
  · rfl
  intro _
  refine keeps_quiet_bind (quiet_call _ ?_) ?_
  · rfl
  intro _
  refine keeps_quiet_bind (quiet_VK_CHECK_RESULT _ _ ?_) ?_
  · rfl
  intro _
  refine keeps_quiet_bind (quiet_call _ ?_) ?_
  · rfl
  intro _
  refine keeps_quiet_bind (quiet_VK_CHECK_RESULT _ _ ?_) ?_
  · rfl
  intro _
  exact keeps_pure _ _ rfl

theorem quiet_buildCommandBuffersFrom (d : Driver) (ex : VulkanExample) :
    ∀ (cmds : List VkCommandBuffer) (i : Nat),
      ∀ cl ∈ (buildCommandBuffersFrom d ex i cmds).trace, cl.isQuiet = true := by
  intro cmds
  induction cmds with
  | nil =>
    intro i cl hcl
    cases hcl
  | cons c0 rest ih =>
    intro i
    unfold buildCommandBuffersFrom
    cases hs : ex.swapChain.buffers[i]? with
    | none =>
      intro cl hcl
      cases hcl
    | some slot =>
      apply quiet_bind
      · intro cl hcl
        exact isQuiet_of_cmdBuffer (buildCommandBuffer_calls_name_cmd _ _ _ _ _ cl hcl)
      · intro _
        split
        · exact ih (i + 1)
        · intro cl hcl
          cases hcl

theorem prepare_establishes (d : Driver) (ex : VulkanExample) : Establishes (prepare d ex) := by
  unfold prepare
  refine establishes_quiet_bind (quiet_harnessCall _ _ ?_) ?_
  · rfl
  intro base
  refine establishes_quiet_bind (quiet_call _ ?_) ?_
  · rfl
  intro _
  refine establishes_quiet_bind (quiet_call _ ?_) ?_
  · rfl
  intro _
  refine establishes_quiet_bind (quiet_call _ ?_) ?_
  · rfl
  intro _
  apply establishes_bind_keeps (prepareUniformBuffers_establishes _ _)
  intro a1
  apply keeps_bind (setupDescriptorSetLayout_keeps _ _)
  intro a2
  apply keeps_bind (preparePipelines_keeps _ _)
  intro a3
  apply keeps_bind (setupDescriptorPool_keeps _ _)
  intro a4
  apply keeps_bind (setupDescriptorSet_keeps _ _)
  intro a5
  apply keeps_quiet_bind (quiet_buildCommandBuffersFrom d a5 _ 0)
  intro _
  exact keeps_pure _ _ rfl

/-- The run of `draw` when the frame cannot be acquired. -/
theorem draw_run_not_acquired (d : Driver) (ex : VulkanExample) (e : Abort)
    (hp : d.prepareFrame ex.toVulkanExampleBase = .error e) :
    draw d ex = ⟨[.prepareFrame], .error e⟩ := by
  simp [draw, harnessCall, bind, Run.bind, hp]

/-- The calls of `draw` never write the uniform buffer, a submission made by `draw` sees
the mapped memory as it is when `draw` is entered, and the state `draw` returns has the
uniform members it was entered with. -/
theorem draw_frame (d : Driver) (ex : VulkanExample) :
    (∀ cl ∈ (draw d ex).trace, cl.isUniformWrite = false) ∧
    (∀ (n : Nat) (q : VkQueue) (cnt : Nat) (si : VkSubmitInfo) (f : VkFence)
      (mem : Option UniformData),
      (draw d ex).trace[n]? = some (.vkQueueSubmit q cnt si f mem) →
      mem = ex.uniformBuffer.mapped ∧
      ∀ cl ∈ (draw d ex).trace.take n, cl.isUniformWrite = false) ∧
    (∀ ex2, (draw d ex).result = .ok ex2 →
      ex2.uniformBuffer = ex.uniformBuffer ∧ ex2.uniformData = ex.uniformData) := by
  cases hp : d.prepareFrame ex.toVulkanExampleBase with
  | error e =>
    rw [draw_run_not_acquired d ex e hp]
    refine ⟨by simp [Call.isUniformWrite], ?_, by simp⟩
    intro n q cnt si f mem hn
    rcases n with _ | n
    · simp at hn
    · simp at hn
  | ok b =>
    by_cases hq : d.vkQueueSubmit b.queue 1
        { b.submitInfo with
          commandBufferCount := 1
          pCommandBuffers := b.drawCmdBuffers.drop b.currentBuffer } VK_NULL_HANDLE = VK_SUCCESS
    · obtain ⟨ht, hr⟩ := draw_run_submitted d ex b hp hq
      rw [ht, hr]
      refine ⟨by simp [Call.isUniformWrite], ?_, ?_⟩
      · intro n q cnt si f mem hn
        rcases n with _ | _ | _ | n
        · simp at hn
        · simp at hn
          exact ⟨hn.2.2.2.2.symm, by simp [Call.isUniformWrite]⟩
        · simp at hn
        · simp at hn
      · intro ex2 h2
        cases hs : d.submitFrame
            { b with submitInfo := { b.submitInfo with
                commandBufferCount := 1
                pCommandBuffers := b.drawCmdBuffers.drop b.currentBuffer } } with
        | error e => simp [hs, Except.map] at h2
        | ok b2 =>
          simp only [hs, Except.map, Except.ok.injEq] at h2
          subst h2
          exact ⟨rfl, rfl⟩
    · rw [draw_run_refused d ex b hp hq]
      refine ⟨by simp [Call.isUniformWrite], ?_, by simp⟩
      intro n q cnt si f mem hn
      rcases n with _ | _ | n
      · simp at hn
      · simp at hn
        exact ⟨hn.2.2.2.2.symm, by simp [Call.isUniformWrite]⟩
      · simp at hn

theorem lastWrite_no_write (tr : List Call) (h : ∀ cl ∈ tr, cl.isUniformWrite = false) :
    lastWrite tr = none := by
  induction tr with
  | nil => rfl
  | cons a tr ih =>
    have ha := h a (List.mem_cons_self _ _)
    simp only [lastWrite, ih (fun cl hcl => h cl (List.mem_cons_of_mem _ hcl))]
    cases a <;> simp_all [Call.isUniformWrite]

/-- One callback keeps the invariant: submissions see the last write, and the mapped
uniform buffer holds the record of the last write. -/
theorem callback_step (cb : Callback) (tr : List Call) (ex : VulkanExample) (r : UniformData)
    (hS : SubmitsSeeLastWrite tr) (hm : ex.uniformBuffer.mapped = some r)
    (hl : lastWrite tr = some r) :
    SubmitsSeeLastWrite (tr ++ (cb.run ex).trace) ∧
    ∀ ex2, (cb.run ex).result = .ok ex2 →
      ∃ r2, ex2.uniformBuffer.mapped = some r2 ∧ lastWrite (tr ++ (cb.run ex).trace) = some r2 := by
  cases cb with
  | viewChanged =>
    simp only [Callback.run, viewChanged]
    rw [updateUniformBuffers_mapped ex r hm]
    constructor
    · apply submitsSeeLastWrite_append_quiet _ _ hS
      simp [Call.isQueueSubmit]
    · intro ex2 h2
      simp only [Except.ok.injEq] at h2
      subst h2
      exact ⟨_, rfl, by simp [lastWrite_append, lastWrite]⟩
  | harnessUpdate base =>
    simp only [Callback.run]
    constructor
    · show SubmitsSeeLastWrite (tr ++ [])
      rw [List.append_nil]
      exact hS
    · intro ex2 h2
      cases h2
      exact ⟨r, hm, by show lastWrite (tr ++ []) = _; rw [List.append_nil]; exact hl⟩
  | render d =>
    simp only [Callback.run, renderFrame]
    split
    · constructor
      · show SubmitsSeeLastWrite (tr ++ [])
        rw [List.append_nil]
        exact hS
      · intro ex2 h2
        cases h2
        exact ⟨r, hm, by show lastWrite (tr ++ []) = _; rw [List.append_nil]; exact hl⟩
    · obtain ⟨hw, hsub, hres⟩ := draw_frame d ex
      constructor
      · apply submitsSeeLastWrite_append _ _ hS
        intro n q cnt si f mem hn
        obtain ⟨h1, h2⟩ := hsub n q cnt si f mem hn
        refine ⟨r, by rw [h1, hm], ?_⟩
        rw [lastWrite_append, lastWrite_no_write _ h2]
        exact hl
      · intro ex2 h2
        refine ⟨r, by rw [(hres ex2 h2).1, hm], ?_⟩
        rw [lastWrite_append, lastWrite_no_write _ hw]
        exact hl

/-- A sequence of callbacks keeps the invariant. -/
theorem runCallbacks_submits (cbs : List Callback) :
    ∀ (tr : List Call) (ex : VulkanExample) (r : UniformData),
      SubmitsSeeLastWrite tr → ex.uniformBuffer.mapped = some r → lastWrite tr = some r →
      SubmitsSeeLastWrite (tr ++ (runCallbacks ex cbs).trace) := by
  induction cbs with
  | nil =>
    intro tr ex r hS _ _
    show SubmitsSeeLastWrite (tr ++ [])
    rw [List.append_nil]
    exact hS
  | cons cb rest ih =>
    intro tr ex r hS hm hl
    obtain ⟨h1, h2⟩ := callback_step cb tr ex r hS hm hl
    show SubmitsSeeLastWrite (tr ++ (Run.bind (cb.run ex) (fun ex => runCallbacks ex rest)).trace)
    unfold Run.bind
    cases hr : (cb.run ex).result with
    | error e => exact h1
    | ok ex2 =>
      obtain ⟨r2, hm2, hl2⟩ := h2 ex2 hr
      show SubmitsSeeLastWrite (tr ++ ((cb.run ex).trace ++ (runCallbacks ex2 rest).trace))
      rw [← List.append_assoc]
      exact ih _ ex2 r2 h1 hm2 hl2

/-! ## The claims -/

/-- C4: for every target pair and every command buffer, the sequence recorded by
`buildCommandBuffer` has exactly two rendering scopes, the first opened with
`renderingInfoDepthOnly` and binding `pipelineDepthOnly`, the second opened with
`renderingInfoColorOnly` and binding `pipelineColorOnly`; their attachments are the views
of the target pair passed in; and the end of the first scope comes before the begin of
the second, these being the only begin and end commands of the sequence. -/
theorem buildCommandBuffer_two_serial_scopes (d : Driver) (ex : VulkanExample)
    (c ds : RenderTarget) (cmd : VkCommandBuffer)
    (hb : d.vkBeginCommandBuffer cmd = VK_SUCCESS) :
    (scopesOf (buildCommandBuffer d ex c ds cmd).trace).map
        (fun s => (s.1, boundPipelines s.2)) =
      [ (renderingInfoDepthOnly ex ds, [ex.pipelineDepthOnly]),
        (renderingInfoColorOnly ex c, [ex.pipelineColorOnly]) ] ∧
    (attachmentsOf (renderingInfoDepthOnly ex ds)).map (fun a => a.imageView) = [ds.view, ds.view] ∧
    (attachmentsOf (renderingInfoColorOnly ex c)).map (fun a => a.imageView) = [c.view] ∧
    ∃ b1 e1 b2 e2 : Nat, b1 < e1 ∧ e1 < b2 ∧ b2 < e2 ∧
      (buildCommandBuffer d ex c ds cmd).trace[b1]? =
        some (.vkCmdBeginRenderingKHR cmd (renderingInfoDepthOnly ex ds)) ∧
      (buildCommandBuffer d ex c ds cmd).trace[e1]? = some (.vkCmdEndRenderingKHR cmd) ∧
      (buildCommandBuffer d ex c ds cmd).trace[b2]? =
        some (.vkCmdBeginRenderingKHR cmd (renderingInfoColorOnly ex c)) ∧
      (buildCommandBuffer d ex c ds cmd).trace[e2]? = some (.vkCmdEndRenderingKHR cmd) ∧
      (∀ (n : Nat) (cl : Call), (buildCommandBuffer d ex c ds cmd).trace[n]? = some cl →
        cl.isBeginRendering = true → n = b1 ∨ n = b2) ∧
      (∀ (n : Nat) (cl : Call), (buildCommandBuffer d ex c ds cmd).trace[n]? = some cl →
        cl.isEndRendering = true → n = e1 ∨ n = e2) := by
  refine ⟨?_, ?_, ?_, ?_⟩
  · rw [buildCommandBuffer_scopes d ex c ds cmd hb]
    simp [boundPipelines]
  · simp [attachmentsOf, renderingInfoDepthOnly, depthStencilAttachment]
  · simp [attachmentsOf, renderingInfoColorOnly, colorAttachment]
  · rw [buildCommandBuffer_trace d ex c ds cmd hb]
    refine ⟨3, 9, 10, 16, by decide, by decide, by decide, rfl, rfl, rfl, rfl, ?_, ?_⟩
    · apply forall_getElem?_of_enum
      simp [List.enum, Call.isBeginRendering]
    · apply forall_getElem?_of_enum
      simp [List.enum, Call.isEndRendering]

/-- Witness of C4 for the sample data. -/
theorem buildCommandBuffer_two_serial_scopes_witness :
    okDriver.vkBeginCommandBuffer 101 = VK_SUCCESS ∧
    (scopesOf (buildCommandBuffer okDriver demoExample ⟨11, 21⟩ ⟨30, 40⟩ 101).trace).map
        (fun s => (s.1, boundPipelines s.2)) =
      [ (renderingInfoDepthOnly demoExample ⟨30, 40⟩, [demoExample.pipelineDepthOnly]),
        (renderingInfoColorOnly demoExample ⟨11, 21⟩, [demoExample.pipelineColorOnly]) ] :=
  ⟨rfl, (buildCommandBuffer_two_serial_scopes okDriver demoExample ⟨11, 21⟩ ⟨30, 40⟩ 101 rfl).1⟩

/-- C5: in the sequence recorded by `buildCommandBuffer` the barrier that moves the color
image to the color attachment layout and the barrier that moves the depth/stencil image
to the depth-stencil attachment layout come before every begin-rendering command, the
barrier that moves the color image to the present layout comes after every end-rendering
command and before the end of the command buffer, these three are the only barriers, and
no barrier is recorded while a rendering scope is open. -/
theorem buildCommandBuffer_barriers_outside_scopes (d : Driver) (ex : VulkanExample)
    (c ds : RenderTarget) (cmd : VkCommandBuffer)
    (hb : d.vkBeginCommandBuffer cmd = VK_SUCCESS) :
    ∃ i j k z : Nat,
      (buildCommandBuffer d ex c ds cmd).trace[i]? =
        some (.insertImageMemoryBarrier cmd c.image 0 0
          .VK_IMAGE_LAYOUT_UNDEFINED .VK_IMAGE_LAYOUT_COLOR_ATTACHMENT_OPTIMAL
          [.VK_PIPELINE_STAGE_TOP_OF_PIPE_BIT] [.VK_PIPELINE_STAGE_COLOR_ATTACHMENT_OUTPUT_BIT]
          ⟨[.VK_IMAGE_ASPECT_COLOR_BIT], 0, 1, 0, 1⟩) ∧
      (buildCommandBuffer d ex c ds cmd).trace[j]? =
        some (.insertImageMemoryBarrier cmd ds.image 0 0
          .VK_IMAGE_LAYOUT_UNDEFINED .VK_IMAGE_LAYOUT_DEPTH_STENCIL_ATTACHMENT_OPTIMAL
          [.VK_PIPELINE_STAGE_EARLY_FRAGMENT_TESTS_BIT, .VK_PIPELINE_STAGE_LATE_FRAGMENT_TESTS_BIT]
          [.VK_PIPELINE_STAGE_EARLY_FRAGMENT_TESTS_BIT, .VK_PIPELINE_STAGE_LATE_FRAGMENT_TESTS_BIT]
          ⟨[.VK_IMAGE_ASPECT_DEPTH_BIT, .VK_IMAGE_ASPECT_STENCIL_BIT], 0, 1, 0, 1⟩) ∧
      (buildCommandBuffer d ex c ds cmd).trace[k]? =
        some (.insertImageMemoryBarrier cmd c.image 0 0
          .VK_IMAGE_LAYOUT_COLOR_ATTACHMENT_OPTIMAL .VK_IMAGE_LAYOUT_PRESENT_SRC_KHR
          [.VK_PIPELINE_STAGE_COLOR_ATTACHMENT_OUTPUT_BIT] [.VK_PIPELINE_STAGE_BOTTOM_OF_PIPE_BIT]
          ⟨[.VK_IMAGE_ASPECT_COLOR_BIT], 0, 1, 0, 1⟩) ∧
      (buildCommandBuffer d ex c ds cmd).trace[z]? = some (.vkEndCommandBuffer cmd) ∧
      k < z ∧
      (∀ (n : Nat) (cl : Call), (buildCommandBuffer d ex c ds cmd).trace[n]? = some cl →
        cl.isBeginRendering = true → i < n ∧ j < n) ∧
      (∀ (n : Nat) (cl : Call), (buildCommandBuffer d ex c ds cmd).trace[n]? = some cl →
        cl.isEndRendering = true → n < k) ∧
      (∀ (n : Nat) (cl : Call), (buildCommandBuffer d ex c ds cmd).trace[n]? = some cl →
        cl.isBarrier = true → n = i ∨ n = j ∨ n = k) ∧
      (∀ (n : Nat) (cl : Call), (buildCommandBuffer d ex c ds cmd).trace[n]? = some cl →
        cl.isBarrier = true → openScopes ((buildCommandBuffer d ex c ds cmd).trace.take n) = 0) := by
  rw [buildCommandBuffer_trace d ex c ds cmd hb]
  refine ⟨1, 2, 17, 18, rfl, rfl, rfl, rfl, by decide, ?_, ?_, ?_, ?_⟩
  · apply forall_getElem?_of_enum
    simp [List.enum, Call.isBeginRendering]
  · apply forall_getElem?_of_enum
    simp [List.enum, Call.isEndRendering]
  · apply forall_getElem?_of_enum
    simp [List.enum, Call.isBarrier]
  · apply forall_getElem?_of_enum
    simp [List.enum, Call.isBarrier, openScopes, Call.isBeginRendering, Call.isEndRendering]

/-- Witness of C5 for the sample data. -/
theorem buildCommandBuffer_barriers_outside_scopes_witness :
    okDriver.vkBeginCommandBuffer 102 = VK_SUCCESS ∧
    ∃ i j k z : Nat,
      (buildCommandBuffer okDriver demoExample ⟨12, 22⟩ ⟨30, 40⟩ 102).trace[i]? =
        some (.insertImageMemoryBarrier 102 12 0 0
          .VK_IMAGE_LAYOUT_UNDEFINED .VK_IMAGE_LAYOUT_COLOR_ATTACHMENT_OPTIMAL
          [.VK_PIPELINE_STAGE_TOP_OF_PIPE_BIT] [.VK_PIPELINE_STAGE_COLOR_ATTACHMENT_OUTPUT_BIT]
          ⟨[.VK_IMAGE_ASPECT_COLOR_BIT], 0, 1, 0, 1⟩) ∧
      (buildCommandBuffer okDriver demoExample ⟨12, 22⟩ ⟨30, 40⟩ 102).trace[j]? =
        some (.insertImageMemoryBarrier 102 30 0 0
          .VK_IMAGE_LAYOUT_UNDEFINED .VK_IMAGE_LAYOUT_DEPTH_STENCIL_ATTACHMENT_OPTIMAL
          [.VK_PIPELINE_STAGE_EARLY_FRAGMENT_TESTS_BIT, .VK_PIPELINE_STAGE_LATE_FRAGMENT_TESTS_BIT]
          [.VK_PIPELINE_STAGE_EARLY_FRAGMENT_TESTS_BIT, .VK_PIPELINE_STAGE_LATE_FRAGMENT_TESTS_BIT]
          ⟨[.VK_IMAGE_ASPECT_DEPTH_BIT, .VK_IMAGE_ASPECT_STENCIL_BIT], 0, 1, 0, 1⟩) ∧
      (buildCommandBuffer okDriver demoExample ⟨12, 22⟩ ⟨30, 40⟩ 102).trace[k]? =
        some (.insertImageMemoryBarrier 102 12 0 0
          .VK_IMAGE_LAYOUT_COLOR_ATTACHMENT_OPTIMAL .VK_IMAGE_LAYOUT_PRESENT_SRC_KHR
          [.VK_PIPELINE_STAGE_COLOR_ATTACHMENT_OUTPUT_BIT] [.VK_PIPELINE_STAGE_BOTTOM_OF_PIPE_BIT]
          ⟨[.VK_IMAGE_ASPECT_COLOR_BIT], 0, 1, 0, 1⟩) ∧
      (buildCommandBuffer okDriver demoExample ⟨12, 22⟩ ⟨30, 40⟩ 102).trace[z]? =
        some (.vkEndCommandBuffer 102) ∧
      k < z := by
  refine ⟨rfl, ?_⟩
  obtain ⟨i, j, k, z, hi, hj, hk, hz, hkz, _⟩ :=
    buildCommandBuffer_barriers_outside_scopes okDriver demoExample ⟨12, 22⟩ ⟨30, 40⟩ 102 rfl
  exact ⟨i, j, k, z, hi, hj, hk, hz, hkz⟩

/-- C6: each of the three rendering info records built by `buildCommandBuffer` (full,
color only, depth only) declares at least one attachment, and every attachment that takes
part in it is cleared on begin and stored on end; so is every attachment of every scope
that the recorded sequence opens. -/
theorem rendering_infos_clear_and_store (d : Driver) (ex : VulkanExample)
    (c ds : RenderTarget) (cmd : VkCommandBuffer) :
    (∀ info ∈ [renderingInfoFull ex c ds, renderingInfoColorOnly ex c,
        renderingInfoDepthOnly ex ds],
      attachmentsOf info ≠ [] ∧
      ∀ a ∈ attachmentsOf info,
        a.loadOp = .VK_ATTACHMENT_LOAD_OP_CLEAR ∧ a.storeOp = .VK_ATTACHMENT_STORE_OP_STORE) ∧
    (∀ (n : Nat) (cl : Call), (buildCommandBuffer d ex c ds cmd).trace[n]? = some cl →
      ∀ (cmd1 : VkCommandBuffer) (info : VkRenderingInfoKHR),
        cl = .vkCmdBeginRenderingKHR cmd1 info →
        attachmentsOf info ≠ [] ∧
        ∀ a ∈ attachmentsOf info,
          a.loadOp = .VK_ATTACHMENT_LOAD_OP_CLEAR ∧ a.storeOp = .VK_ATTACHMENT_STORE_OP_STORE) := by
  constructor
  · simp [attachmentsOf, renderingInfoFull, renderingInfoColorOnly, renderingInfoDepthOnly,
      colorAttachment, depthStencilAttachment]
  · by_cases hb : d.vkBeginCommandBuffer cmd = VK_SUCCESS
    · rw [buildCommandBuffer_trace d ex c ds cmd hb]
      apply forall_getElem?_of_enum
      simp [List.enum, attachmentsOf, renderingInfoColorOnly, renderingInfoDepthOnly,
        colorAttachment, depthStencilAttachment]
    · rw [buildCommandBuffer_trace_failed d ex c ds cmd hb]
      apply forall_getElem?_of_enum
      simp [List.enum]

/-- Witness of C6 for the sample data: the first scope of the recorded sequence. -/
theorem rendering_infos_clear_and_store_witness :
    (buildCommandBuffer okDriver demoExample ⟨11, 21⟩ ⟨30, 40⟩ 101).trace[3]? =
      some (.vkCmdBeginRenderingKHR 101 (renderingInfoDepthOnly demoExample ⟨30, 40⟩)) ∧
    attachmentsOf (renderingInfoDepthOnly demoExample ⟨30, 40⟩) ≠ [] ∧
    ∀ a ∈ attachmentsOf (renderingInfoDepthOnly demoExample ⟨30, 40⟩),
      a.loadOp = .VK_ATTACHMENT_LOAD_OP_CLEAR ∧ a.storeOp = .VK_ATTACHMENT_STORE_OP_STORE :=
  ⟨by decide,
    (rendering_infos_clear_and_store okDriver demoExample ⟨11, 21⟩ ⟨30, 40⟩ 101).2 3
      (.vkCmdBeginRenderingKHR 101 (renderingInfoDepthOnly demoExample ⟨30, 40⟩))
      (by decide) 101 _ rfl⟩

/-- C10: a scope recorded by `render` is, in this order, begin-rendering, set viewport,
set scissor, bind descriptor set, bind pipeline, draw the model, end-rendering, and
`render` always returns. In the whole sequence recorded by `buildCommandBuffer` every
bind and every draw lies inside an open scope; every draw has, before it and after the
begin of its scope, the descriptor set bind and the pipeline bind; the number of open
scopes is never below zero or above one, and it is zero at the end. -/
theorem render_scope_linear_and_bracketed (d : Driver) (ex : VulkanExample) (c ds : RenderTarget)
    (cmd : VkCommandBuffer) :
    (∀ (layout : VkPipelineLayout) (pipeline : VkPipeline) (info : VkRenderingInfoKHR)
        (cmd1 : VkCommandBuffer),
      (render ex layout pipeline info cmd1).result = .ok () ∧
      (render ex layout pipeline info cmd1).trace =
        [ .vkCmdBeginRenderingKHR cmd1 info,
          .vkCmdSetViewport cmd1 0 1 ⟨ex.width, ex.height, 0, 1⟩,
          .vkCmdSetScissor cmd1 0 1 ⟨0, 0, ex.width, ex.height⟩,
          .vkCmdBindDescriptorSets cmd1 .VK_PIPELINE_BIND_POINT_GRAPHICS ex.pipelineLayout 0 1
            ex.descriptorSet 0,
          .vkCmdBindPipeline cmd1 .VK_PIPELINE_BIND_POINT_GRAPHICS pipeline,
          .modelDraw cmd1 [.BindImages] ex.pipelineLayout,
          .vkCmdEndRenderingKHR cmd1 ]) ∧
    (∀ (n : Nat) (cl : Call), (buildCommandBuffer d ex c ds cmd).trace[n]? = some cl →
      (cl.isBindDescriptorSets = true ∨ cl.isBindPipeline = true ∨ cl.isDraw = true) →
      openScopes ((buildCommandBuffer d ex c ds cmd).trace.take n) = 1) ∧
    (∀ (n : Nat) (cl : Call), (buildCommandBuffer d ex c ds cmd).trace[n]? = some cl →
      cl.isDraw = true →
      ∃ i j : Nat, i < j ∧ j < n ∧
        (∃ x : Call, (buildCommandBuffer d ex c ds cmd).trace[i]? = some x ∧
          x.isBindDescriptorSets = true) ∧
        (∃ y : Call, (buildCommandBuffer d ex c ds cmd).trace[j]? = some y ∧
          y.isBindPipeline = true) ∧
        ∀ (k : Nat) (z : Call), (buildCommandBuffer d ex c ds cmd).trace[k]? = some z →
          i ≤ k → k < n → z.isBeginRendering = false ∧ z.isEndRendering = false) ∧
    (∀ n : Nat, 0 ≤ openScopes ((buildCommandBuffer d ex c ds cmd).trace.take n) ∧
      openScopes ((buildCommandBuffer d ex c ds cmd).trace.take n) ≤ 1) ∧
    openScopes (buildCommandBuffer d ex c ds cmd).trace = 0 := by
  refine ⟨?_, ?_⟩
  · intro layout pipeline info cmd1
    simp [render_run]
  by_cases hb : d.vkBeginCommandBuffer cmd = VK_SUCCESS
  · rw [buildCommandBuffer_trace d ex c ds cmd hb]
    refine ⟨?_, ?_, ?_, ?_⟩
    · apply forall_getElem?_of_enum
      simp [List.enum, Call.isBindDescriptorSets, Call.isBindPipeline, Call.isDraw, openScopes,
        Call.isBeginRendering, Call.isEndRendering]
    · apply forall_getElem?_of_enum
      simp only [List.enum, List.enumFrom_cons, List.enumFrom_nil, List.forall_mem_cons]
      refine ⟨?_, ?_, ?_, ?_, ?_, ?_, ?_, ?_, ?_, ?_, ?_, ?_, ?_, ?_, ?_, ?_, ?_, ?_, ?_, ?_⟩
      all_goals try (intro h; simp [Call.isDraw] at h; done)
      all_goals try simp; done
      · intro _
        refine ⟨6, 7, by decide, by decide, ⟨_, rfl, rfl⟩, ⟨_, rfl, rfl⟩, ?_⟩
        apply forall_getElem?_of_enum
        simp [List.enum, Call.isBeginRendering, Call.isEndRendering]
      · intro _
        refine ⟨13, 14, by decide, by decide, ⟨_, rfl, rfl⟩, ⟨_, rfl, rfl⟩, ?_⟩
        apply forall_getElem?_of_enum
        simp [List.enum, Call.isBeginRendering, Call.isEndRendering]
    · intro n
      rcases Nat.lt_or_ge n 19 with h | h
      · interval_cases n <;> simp [openScopes, Call.isBeginRendering, Call.isEndRendering]
      · rw [List.take_of_length_le (by simpa using h)]
        simp [openScopes, Call.isBeginRendering, Call.isEndRendering]
    · simp [openScopes, Call.isBeginRendering, Call.isEndRendering]
  · rw [buildCommandBuffer_trace_failed d ex c ds cmd hb]
    refine ⟨?_, ?_, ?_, ?_⟩
    · apply forall_getElem?_of_enum
      simp [List.enum, Call.isBindDescriptorSets, Call.isBindPipeline, Call.isDraw]
    · apply forall_getElem?_of_enum
      simp [List.enum, Call.isDraw]
    · intro n
      rcases n with _ | n <;> simp [openScopes, Call.isBeginRendering, Call.isEndRendering]
    · simp [openScopes, Call.isBeginRendering, Call.isEndRendering]

/-- Witness of C10 for the sample data: the first draw of the recorded sequence. -/
theorem render_scope_linear_and_bracketed_witness :
    (buildCommandBuffer okDriver demoExample ⟨11, 21⟩ ⟨30, 40⟩ 101).trace[8]? =
      some (.modelDraw 101 [.BindImages] 5) ∧
    openScopes ((buildCommandBuffer okDriver demoExample ⟨11, 21⟩ ⟨30, 40⟩ 101).trace.take 8) = 1 :=
  ⟨by decide,
    (render_scope_linear_and_bracketed okDriver demoExample ⟨11, 21⟩ ⟨30, 40⟩ 101).2.1 8
      (.modelDraw 101 [.BindImages] 5) (by decide) (Or.inr (Or.inr rfl))⟩

/-- C1: let the three pipelines be created by `preparePipelines` with a defined depth
format and every creation succeeding. Then in any later state that still holds the
depth only and the color only pipeline, every scope that `buildCommandBuffer` records
binds a pipeline, and each pipeline bound in a scope was created for the attachment
subset the scope declares: same color attachment count, depth format defined exactly
when the scope has a depth attachment, stencil format defined exactly when it has a
stencil attachment. The depth only pipeline is bound only in a scope with zero color
attachments and the one depth/stencil attachment, the color only pipeline only in a
scope with one color attachment and neither depth nor stencil attachment. -/
theorem bound_pipeline_matches_scope (d : Driver) (ex : VulkanExample)
    (hc : ∀ ci, d.vkCreateGraphicsPipelines ci = VK_SUCCESS)
    (hf : ex.depthFormat ≠ VK_FORMAT_UNDEFINED) :
    ∃ ex1 : VulkanExample, (preparePipelines d ex).result = .ok ex1 ∧
      ∀ (d2 : Driver) (ex2 : VulkanExample) (c ds : RenderTarget) (cmd : VkCommandBuffer),
        ex2.pipelineDepthOnly = ex1.pipelineDepthOnly →
        ex2.pipelineColorOnly = ex1.pipelineColorOnly →
        ∀ s ∈ scopesOf (buildCommandBuffer d2 ex2 c ds cmd).trace,
          boundPipelines s.2 ≠ [] ∧
          (∀ p ∈ boundPipelines s.2, attachmentsMatch p s.1) ∧
          (ex2.pipelineDepthOnly ∈ boundPipelines s.2 →
            s.1.colorAttachmentCount = 0 ∧
            s.1.pDepthAttachment = some (depthStencilAttachment ds) ∧
            s.1.pStencilAttachment = some (depthStencilAttachment ds)) ∧
          (ex2.pipelineColorOnly ∈ boundPipelines s.2 →
            s.1.colorAttachmentCount = 1 ∧
            s.1.pColorAttachments = some (colorAttachment c) ∧
            s.1.pDepthAttachment = none ∧ s.1.pStencilAttachment = none) := by
  refine ⟨_, preparePipelines_result d ex hc, ?_⟩
  intro d2 ex2 c ds cmd hD hC
  by_cases hb : d2.vkBeginCommandBuffer cmd = VK_SUCCESS
  swap
  · rw [buildCommandBuffer_trace_failed d2 ex2 c ds cmd hb]
    simp [scopesOf, scopesFrom]
  rw [buildCommandBuffer_scopes d2 ex2 c ds cmd hb]
  have hne : pipelineCIDepthOnly d ex ≠ pipelineCIColorOnly d ex := by
    intro h
    have := congrArg VkGraphicsPipelineCreateInfo.stageCount h
    simp [pipelineCIDepthOnly, pipelineCIColorOnly, shaderStagesVertex, shaderStagesBoth] at this
  simp only [List.forall_mem_cons, List.not_mem_nil, false_implies, implies_true, and_true,
    boundPipelines]
  simp only [hD, hC]
  refine ⟨⟨by simp, ?_, ?_, ?_⟩, ⟨by simp, ?_, ?_, ?_⟩⟩
  · simp [attachmentsMatch, pipelineCIDepthOnly, renderingInfoDepthOnly, hf]
  · intro _
    simp [renderingInfoDepthOnly]
  · intro h
    simp at h
    exact absurd h.symm hne
  · simp [attachmentsMatch, pipelineCIColorOnly, renderingInfoColorOnly]
  · intro h
    simp at h
    exact absurd h hne
  · intro _
    simp [renderingInfoColorOnly]

/-- Witness of C1 for the sample data. -/
theorem bound_pipeline_matches_scope_witness :
    (∀ ci, okDriver.vkCreateGraphicsPipelines ci = VK_SUCCESS) ∧
    demoExample.depthFormat ≠ VK_FORMAT_UNDEFINED ∧
    ∃ ex1 : VulkanExample, (preparePipelines okDriver demoExample).result = .ok ex1 ∧
      ∀ s ∈ scopesOf (buildCommandBuffer okDriver ex1 ⟨11, 21⟩ ⟨30, 40⟩ 101).trace,
        boundPipelines s.2 ≠ [] ∧ ∀ p ∈ boundPipelines s.2, attachmentsMatch p s.1 := by
  refine ⟨fun _ => rfl, by decide, ?_⟩
  obtain ⟨ex1, h1, h2⟩ :=
    bound_pipeline_matches_scope okDriver demoExample (fun _ => rfl) (by decide)
  exact ⟨ex1, h1, fun s hs =>
    ⟨(h2 okDriver ex1 ⟨11, 21⟩ ⟨30, 40⟩ 101 rfl rfl s hs).1,
     (h2 okDriver ex1 ⟨11, 21⟩ ⟨30, 40⟩ 101 rfl rfl s hs).2.1⟩⟩

/-- C3: the calls of `draw` are always an initial part of: prepareFrame, one queue
submission of one batch, submitFrame, in this order. When the frame is acquired, the
submission is accepted and the acquired index is one of the draw command buffers, `draw`
makes exactly these three calls, the submission has one batch whose only command buffer
is drawCmdBuffers[currentBuffer], and it is the only submission. -/
theorem draw_acquire_submit_present (d : Driver) (ex : VulkanExample) :
    (∃ (q : VkQueue) (si : VkSubmitInfo) (mem : Option UniformData) (rest : List Call),
      (draw d ex).trace ++ rest =
        [.prepareFrame, .vkQueueSubmit q 1 si VK_NULL_HANDLE mem, .submitFrame]) ∧
    ∀ (b : VulkanExampleBase) (hi : b.currentBuffer < b.drawCmdBuffers.length),
      d.prepareFrame ex.toVulkanExampleBase = .ok b →
      d.vkQueueSubmit b.queue 1
        { b.submitInfo with
          commandBufferCount := 1
          pCommandBuffers := b.drawCmdBuffers.drop b.currentBuffer } VK_NULL_HANDLE = VK_SUCCESS →
      ∃ (si : VkSubmitInfo) (mem : Option UniformData),
        (draw d ex).trace = [.prepareFrame, .vkQueueSubmit b.queue 1 si VK_NULL_HANDLE mem,
          .submitFrame] ∧
        si.commandBufferCount = 1 ∧
        si.pCommandBuffers.take si.commandBufferCount =
          [b.drawCmdBuffers.get ⟨b.currentBuffer, hi⟩] ∧
        ((draw d ex).trace.filter Call.isQueueSubmit).length = 1 := by
  constructor
  · cases hp : d.prepareFrame ex.toVulkanExampleBase with
    | error e =>
      rw [draw_run_not_acquired d ex e hp]
      exact ⟨ex.queue, ex.submitInfo, none, _, rfl⟩
    | ok b =>
      by_cases hq : d.vkQueueSubmit b.queue 1
          { b.submitInfo with
            commandBufferCount := 1
            pCommandBuffers := b.drawCmdBuffers.drop b.currentBuffer } VK_NULL_HANDLE = VK_SUCCESS
      · rw [(draw_run_submitted d ex b hp hq).1]
        exact ⟨_, _, _, [], rfl⟩
      · rw [draw_run_refused d ex b hp hq]
        exact ⟨_, _, _, [.submitFrame], rfl⟩
  · intro b hi hp hq
    refine ⟨_, _, (draw_run_submitted d ex b hp hq).1, rfl, ?_, ?_⟩
    · show List.take 1 (List.drop b.currentBuffer b.drawCmdBuffers) = _
      rw [List.drop_eq_getElem_cons hi]
      rfl
    · rw [(draw_run_submitted d ex b hp hq).1]
      simp [Call.isQueueSubmit]

/-- Witness of C3 for the sample data. -/
theorem draw_acquire_submit_present_witness :
    okDriver.prepareFrame demoExample.toVulkanExampleBase = .ok demoExample.toVulkanExampleBase ∧
    demoExample.currentBuffer < demoExample.drawCmdBuffers.length ∧
    ∃ (si : VkSubmitInfo) (mem : Option UniformData),
      (draw okDriver demoExample).trace =
        [.prepareFrame, .vkQueueSubmit 9 1 si VK_NULL_HANDLE mem, .submitFrame] ∧
      si.commandBufferCount = 1 ∧
      si.pCommandBuffers.take si.commandBufferCount = [102] := by
  obtain ⟨si, mem, h1, h2, h3, _⟩ :=
    (draw_acquire_submit_present okDriver demoExample).2 demoExample.toVulkanExampleBase
      (by decide) rfl rfl
  exact ⟨rfl, by decide, si, mem, h1, h2, h3⟩

/-- C7: when prepareFrame succeeds and submitFrame succeeds whenever it is called, `draw`
aborts exactly when the queue submission returns a code other than VK_SUCCESS; it then
aborts with that code, after one submission and without calling submitFrame. -/
theorem draw_fails_iff_submit_fails (d : Driver) (ex : VulkanExample) (b : VulkanExampleBase)
    (hp : d.prepareFrame ex.toVulkanExampleBase = .ok b)
    (hs : ∀ s, ∃ s2, d.submitFrame s = .ok s2) :
    ((∃ e, (draw d ex).result = .error e) ↔
      d.vkQueueSubmit b.queue 1
        { b.submitInfo with
          commandBufferCount := 1
          pCommandBuffers := b.drawCmdBuffers.drop b.currentBuffer } VK_NULL_HANDLE ≠ VK_SUCCESS) ∧
    (d.vkQueueSubmit b.queue 1
        { b.submitInfo with
          commandBufferCount := 1
          pCommandBuffers := b.drawCmdBuffers.drop b.currentBuffer } VK_NULL_HANDLE ≠ VK_SUCCESS →
      (draw d ex).result = .error (.vkError (d.vkQueueSubmit b.queue 1
        { b.submitInfo with
          commandBufferCount := 1
          pCommandBuffers := b.drawCmdBuffers.drop b.currentBuffer } VK_NULL_HANDLE)) ∧
      ((draw d ex).trace.filter Call.isQueueSubmit).length = 1 ∧
      Call.submitFrame ∉ (draw d ex).trace) := by
  constructor
  · constructor
    · rintro ⟨e, he⟩ hq
      obtain ⟨s2, h2⟩ := hs
        { b with submitInfo := { b.submitInfo with
            commandBufferCount := 1
            pCommandBuffers := b.drawCmdBuffers.drop b.currentBuffer } }
      rw [(draw_run_submitted d ex b hp hq).2, h2] at he
      simp [Except.map] at he
    · intro hq
      rw [draw_run_refused d ex b hp hq]
      exact ⟨_, rfl⟩
  · intro hq
    rw [draw_run_refused d ex b hp hq]
    simp [Call.isQueueSubmit]

/-- Witness of C7: a driver that refuses the submission with code -4. -/
theorem draw_fails_iff_submit_fails_witness :
    lostDriver.prepareFrame demoExample.toVulkanExampleBase = .ok demoExample.toVulkanExampleBase ∧
    (∀ s, ∃ s2, lostDriver.submitFrame s = .ok s2) ∧
    (draw lostDriver demoExample).result = .error (.vkError (-4)) ∧
    ((draw lostDriver demoExample).trace.filter Call.isQueueSubmit).length = 1 ∧
    Call.submitFrame ∉ (draw lostDriver demoExample).trace :=
  ⟨rfl, fun s => ⟨s, rfl⟩,
    (draw_fails_iff_submit_fails lostDriver demoExample demoExample.toVulkanExampleBase rfl
      (fun s => ⟨s, rfl⟩)).2 (by decide)⟩

/-- C9, as stated, fails: for the sample data no two of the three creation records are
the same apart from the output attachments they declare. -/
theorem pipeline_records_not_same_but_attachments :
    ¬ sameButAttachments (pipelineCIFull okDriver demoExample)
        (pipelineCIColorOnly okDriver demoExample) ∧
    ¬ sameButAttachments (pipelineCIFull okDriver demoExample)
        (pipelineCIDepthOnly okDriver demoExample) ∧
    ¬ sameButAttachments (pipelineCIColorOnly okDriver demoExample)
        (pipelineCIDepthOnly okDriver demoExample) := by
  refine ⟨?_, ?_, ?_⟩ <;> intro h
  · have := congrArg (fun r => r.pDepthStencilState.depthTestEnable) h
    simp [pipelineCIFull, pipelineCIColorOnly] at this
  · have := congrArg VkGraphicsPipelineCreateInfo.stageCount h
    simp [pipelineCIFull, pipelineCIDepthOnly, shaderStagesBoth, shaderStagesVertex] at this
  · have := congrArg VkGraphicsPipelineCreateInfo.stageCount h
    simp [pipelineCIColorOnly, pipelineCIDepthOnly, shaderStagesBoth, shaderStagesVertex] at this

/-- C9, amended: the color only record is the full record except for its attachment
declaration and its depth-stencil state (depth test and write off, compare never, against
on, on, less-or-equal); the depth only record is the full record except for its
attachment declaration, its shader stages (the vertex stage alone, against vertex and
fragment) and its color blend state (zero attachments against one, same blend attachment
state). The attachment declarations are (1 color, depth, stencil), (1 color, none, none)
and (0 color, depth, stencil). -/
theorem pipeline_records_differences (d : Driver) (ex : VulkanExample) :
    { pipelineCIColorOnly d ex with
        pNext := (pipelineCIFull d ex).pNext
        pDepthStencilState := (pipelineCIFull d ex).pDepthStencilState } = pipelineCIFull d ex ∧
    { pipelineCIDepthOnly d ex with
        pNext := (pipelineCIFull d ex).pNext
        stageCount := (pipelineCIFull d ex).stageCount
        pStages := (pipelineCIFull d ex).pStages
        pColorBlendState := (pipelineCIFull d ex).pColorBlendState } = pipelineCIFull d ex ∧
    (pipelineCIFull d ex).pDepthStencilState = ⟨true, true, .VK_COMPARE_OP_LESS_OR_EQUAL⟩ ∧
    (pipelineCIColorOnly d ex).pDepthStencilState = ⟨false, false, .VK_COMPARE_OP_NEVER⟩ ∧
    (pipelineCIFull d ex).stageCount = 2 ∧
    (pipelineCIFull d ex).pStages = shaderStagesBoth d ∧
    (pipelineCIDepthOnly d ex).stageCount = 1 ∧
    (pipelineCIDepthOnly d ex).pStages = (pipelineCIFull d ex).pStages.take 1 ∧
    (pipelineCIFull d ex).pColorBlendState = ⟨1, some ⟨0xf, false⟩⟩ ∧
    (pipelineCIDepthOnly d ex).pColorBlendState = ⟨0, some ⟨0xf, false⟩⟩ ∧
    (pipelineCIFull d ex).pNext =
      some ⟨1, some ex.swapChain.colorFormat, ex.depthFormat, ex.depthFormat⟩ ∧
    (pipelineCIColorOnly d ex).pNext =
      some ⟨1, some ex.swapChain.colorFormat, VK_FORMAT_UNDEFINED, VK_FORMAT_UNDEFINED⟩ ∧
    (pipelineCIDepthOnly d ex).pNext = some ⟨0, none, ex.depthFormat, ex.depthFormat⟩ := by
  simp [pipelineCIFull, pipelineCIColorOnly, pipelineCIDepthOnly, shaderStagesBoth,
    shaderStagesVertex]

/-- C8, as stated, fails: for the sample data, with two slots, the sequences recorded
into the two command buffers do share a target: it is not so that they name no common
image, and not so that they name no common view. The depth/stencil image (30) and its
view (40) are named by both. -/
theorem slots_share_depth_target :
    ¬ (∀ img ∈ barrierImages (recordedInto 101 (buildCommandBuffers okDriver demoExample).trace),
        img ∉ barrierImages (recordedInto 102 (buildCommandBuffers okDriver demoExample).trace)) ∧
    ¬ (∀ v ∈ attachmentViews (recordedInto 101 (buildCommandBuffers okDriver demoExample).trace),
        v ∉ attachmentViews (recordedInto 102 (buildCommandBuffers okDriver demoExample).trace)) := by
  constructor
  · intro h
    refine h 30 ?_ ?_ <;> decide
  · intro h
    refine h 40 ?_ ?_ <;> decide

/-- C8, amended: let the command buffer handles be distinct, fewer than 2^31, not more
than the swap chain slots, and let begin and end of each succeed. Then
`buildCommandBuffers` returns, and for every index i below the number of draw command
buffers the calls it records into command buffer i are those of `buildCommandBuffer` for
the color image and view of swap chain slot i and the one depth/stencil image and view of
the harness, the same for every slot: the barriers name the color image of slot i and
the depth/stencil image, the attachments name the depth/stencil view and the color view
of slot i. A `draw` whose acquired index is i submits command buffer i. -/
theorem buildCommandBuffers_slot_targets (d : Driver) (ex : VulkanExample) (i : Nat)
    (cmd : VkCommandBuffer) (slot : SwapChainBuffer)
    (hok : ∀ c ∈ ex.drawCmdBuffers,
      d.vkBeginCommandBuffer c = VK_SUCCESS ∧ d.vkEndCommandBuffer c = VK_SUCCESS)
    (hlen : ex.drawCmdBuffers.length ≤ ex.swapChain.buffers.length)
    (h31 : ex.drawCmdBuffers.length < 2 ^ 31)
    (hnd : ex.drawCmdBuffers.Nodup)
    (hcmd : ex.drawCmdBuffers[i]? = some cmd)
    (hslot : ex.swapChain.buffers[i]? = some slot) :
    (buildCommandBuffers d ex).result = .ok () ∧
    recordedInto cmd (buildCommandBuffers d ex).trace =
      (buildCommandBuffer d ex ⟨slot.image, slot.view⟩
        ⟨ex.depthStencil.image, ex.depthStencil.view⟩ cmd).trace ∧
    barrierImages (recordedInto cmd (buildCommandBuffers d ex).trace) =
      [slot.image, ex.depthStencil.image, slot.image] ∧
    attachmentViews (recordedInto cmd (buildCommandBuffers d ex).trace) =
      [ex.depthStencil.view, ex.depthStencil.view, slot.view] ∧
    (∀ (d2 : Driver) (ex2 : VulkanExample) (b : VulkanExampleBase),
      d2.prepareFrame ex2.toVulkanExampleBase = .ok b →
      b.drawCmdBuffers = ex.drawCmdBuffers → b.currentBuffer = i →
      ∃ (si : VkSubmitInfo) (mem : Option UniformData),
        Call.vkQueueSubmit b.queue 1 si VK_NULL_HANDLE mem ∈ (draw d2 ex2).trace ∧
        si.pCommandBuffers.take si.commandBufferCount = [cmd]) := by
  obtain ⟨hr, _, hk⟩ := buildCommandBuffersFrom_recorded d ex ex.drawCmdBuffers 0 hok
    (by omega) (by omega) hnd
  have hrec := hk i cmd slot hcmd (by simpa using hslot)
  have hb := (hok cmd (List.getElem?_mem hcmd)).1
  refine ⟨hr, hrec, ?_, ?_, ?_⟩
  · show barrierImages (recordedInto cmd (buildCommandBuffersFrom d ex 0 ex.drawCmdBuffers).trace) = _
    rw [hrec, buildCommandBuffer_trace _ _ _ _ _ hb]
    simp [barrierImages]
  · show attachmentViews (recordedInto cmd (buildCommandBuffersFrom d ex 0 ex.drawCmdBuffers).trace) = _
    rw [hrec, buildCommandBuffer_trace _ _ _ _ _ hb]
    simp [attachmentViews, attachmentsOf, renderingInfoDepthOnly, renderingInfoColorOnly,
      depthStencilAttachment, colorAttachment]
  · intro d2 ex2 b hp hdc hcur
    have hi : b.currentBuffer < b.drawCmdBuffers.length := by
      rw [hdc, hcur]
      exact (List.getElem?_eq_some.mp hcmd).1
    have hget : b.drawCmdBuffers[b.currentBuffer] = cmd := by
      have := (List.getElem?_eq_some.mp hcmd).2
      simp only [hdc, hcur]
      exact this
    refine ⟨{ b.submitInfo with
        commandBufferCount := 1
        pCommandBuffers := b.drawCmdBuffers.drop b.currentBuffer }, ex2.uniformBuffer.mapped, ?_, ?_⟩
    · by_cases hq : d2.vkQueueSubmit b.queue 1
        { b.submitInfo with
          commandBufferCount := 1
          pCommandBuffers := b.drawCmdBuffers.drop b.currentBuffer } VK_NULL_HANDLE = VK_SUCCESS
      · rw [(draw_run_submitted d2 ex2 b hp hq).1]
        simp
      · rw [draw_run_refused d2 ex2 b hp hq]
        simp
    · show List.take 1 (List.drop b.currentBuffer b.drawCmdBuffers) = _
      rw [List.drop_eq_getElem_cons hi, hget]
      rfl

/-- Witness of amended C8 for the sample data, slot 1. -/
theorem buildCommandBuffers_slot_targets_witness :
    (∀ c ∈ demoExample.drawCmdBuffers,
      okDriver.vkBeginCommandBuffer c = VK_SUCCESS ∧ okDriver.vkEndCommandBuffer c = VK_SUCCESS) ∧
    demoExample.drawCmdBuffers.length ≤ demoExample.swapChain.buffers.length ∧
    demoExample.drawCmdBuffers.length < 2 ^ 31 ∧
    demoExample.drawCmdBuffers.Nodup ∧
    demoExample.drawCmdBuffers[1]? = some 102 ∧
    demoExample.swapChain.buffers[1]? = some ⟨12, 22⟩ ∧
    (buildCommandBuffers okDriver demoExample).result = .ok () ∧
    barrierImages (recordedInto 102 (buildCommandBuffers okDriver demoExample).trace) =
      [12, 30, 12] ∧
    attachmentViews (recordedInto 102 (buildCommandBuffers okDriver demoExample).trace) =
      [40, 40, 22] := by
  have h := buildCommandBuffers_slot_targets okDriver demoExample 1 102 ⟨12, 22⟩
    (fun _ _ => ⟨rfl, rfl⟩) (by decide) (by decide) (by decide) rfl rfl
  exact ⟨fun _ _ => ⟨rfl, rfl⟩, by decide, by decide, by decide, rfl, rfl, h.1, h.2.2.1, h.2.2.2.1⟩

/-- C2: after a `prepare()` that returned, and for every sequence of `viewChanged()`
calls, `render()` calls and changes the harness makes to its own members in between,
each queue submission of the whole run sees in the mapped uniform buffer the record of
the last write that precedes it. A write is made by `updateUniformBuffers` alone, and
the record it writes is (camera perspective, camera view, camera viewPos); `draw` makes
no write and returns the uniform members unchanged, as does a change by the harness. -/
theorem submit_sees_last_update (d0 : Driver) (ex0 ex1 : VulkanExample) (cbs : List Callback)
    (hp : (prepare d0 ex0).result = .ok ex1) :
    (∀ (n : Nat) (q : VkQueue) (cnt : Nat) (si : VkSubmitInfo) (f : VkFence)
      (mem : Option UniformData),
      ((prepare d0 ex0).trace ++ (runCallbacks ex1 cbs).trace)[n]? =
        some (.vkQueueSubmit q cnt si f mem) →
      ∃ r, mem = some r ∧
        lastWrite (((prepare d0 ex0).trace ++ (runCallbacks ex1 cbs).trace).take n) = some r) ∧
    (∀ ex ex2 : VulkanExample, (updateUniformBuffers ex).result = .ok ex2 →
      (updateUniformBuffers ex).trace =
        [.memcpy ⟨ex.camera.matrices.perspective, ex.camera.matrices.view, ex.camera.viewPos⟩] ∧
      ex2.uniformBuffer.mapped =
        some ⟨ex.camera.matrices.perspective, ex.camera.matrices.view, ex.camera.viewPos⟩) ∧
    (∀ (d : Driver) (ex : VulkanExample),
      (∀ cl ∈ (draw d ex).trace, cl.isUniformWrite = false) ∧
      ∀ ex2, (draw d ex).result = .ok ex2 →
        ex2.uniformBuffer = ex.uniformBuffer ∧ ex2.uniformData = ex.uniformData) ∧
    (∀ (ex : VulkanExample) (base : VulkanExampleBase),
      ((Callback.harnessUpdate base).run ex).trace = [] ∧
      ∀ ex2, ((Callback.harnessUpdate base).run ex).result = .ok ex2 →
        ex2.uniformBuffer = ex.uniformBuffer ∧ ex2.uniformData = ex.uniformData) := by
  refine ⟨?_, ?_, ?_, ?_⟩
  · obtain ⟨hq, he⟩ := prepare_establishes d0 ex0
    obtain ⟨r, hm, hl⟩ := he ex1 hp
    have hS : SubmitsSeeLastWrite (prepare d0 ex0).trace := by
      intro n q cnt si f mem hn
      have := hq _ (List.getElem?_mem hn)
      simp [Call.isQueueSubmit] at this
    exact runCallbacks_submits cbs _ ex1 r hS hm hl
  · intro ex ex2 h2
    cases hm : ex.uniformBuffer.mapped with
    | none =>
      rw [updateUniformBuffers_unmapped ex hm] at h2
      cases h2
    | some r =>
      rw [updateUniformBuffers_mapped ex r hm] at h2 ⊢
      simp only [Except.ok.injEq] at h2
      subst h2
      exact ⟨rfl, rfl⟩
  · intro d ex
    exact ⟨(draw_frame d ex).1, (draw_frame d ex).2.2⟩
  · intro ex base
    refine ⟨rfl, ?_⟩
    intro ex2 h2
    cases h2
    exact ⟨rfl, rfl⟩

/-- Witness of C2 for the sample data: the camera is moved, the sample is told, a frame
is drawn; the submission sees the record of the moved camera. -/
theorem submit_sees_last_update_witness :
    (prepare okDriver demoExample).result = .ok demoPrepared ∧
    (∀ (n : Nat) (q : VkQueue) (cnt : Nat) (si : VkSubmitInfo) (f : VkFence)
      (mem : Option UniformData),
      ((prepare okDriver demoExample).trace ++ (runCallbacks demoPrepared demoCallbacks).trace)[n]? =
        some (.vkQueueSubmit q cnt si f mem) →
      ∃ r, mem = some r ∧
        lastWrite (((prepare okDriver demoExample).trace ++
          (runCallbacks demoPrepared demoCallbacks).trace).take n) = some r) ∧
    (runCallbacks demoPrepared demoCallbacks).trace =
      [ .memcpy ⟨[9], [8], [7]⟩,
        .prepareFrame,
        .vkQueueSubmit 9 1 ⟨[7], [8], 1, [102]⟩ VK_NULL_HANDLE (some ⟨[9], [8], [7]⟩),
        .submitFrame ] :=
  ⟨rfl, (submit_sees_last_update okDriver demoExample demoPrepared demoCallbacks rfl).1, by decide⟩

/-- C11: let the color view be a view of the color image, the depth/stencil view a view
of the depth/stencil image, and the two images be different. Track the layout of every
image over the sequence recorded by `buildCommandBuffer`, each barrier setting the layout
of its image to its new layout, from any layouts at the start. Then (a) at every
begin-rendering command each attachment of the scope declares the layout its image is
tracked in (the color attachment COLOR_ATTACHMENT_OPTIMAL, the depth/stencil attachment
DEPTH_STENCIL_ATTACHMENT_OPTIMAL); (b) there is a barrier to the present layout, and any
such barrier names the color image and, as old layout, the layout the color image is
tracked in at that point; (c) at the end the color image is in PRESENT_SRC_KHR and the
depth/stencil image in DEPTH_STENCIL_ATTACHMENT_OPTIMAL. -/
theorem buildCommandBuffer_layouts_tracked (d : Driver) (ex : VulkanExample)
    (c ds : RenderTarget) (cmd : VkCommandBuffer)
    (layouts : VkImage → VkImageLayout) (imageOf : VkImageView → VkImage)
    (hb : d.vkBeginCommandBuffer cmd = VK_SUCCESS)
    (hcv : imageOf c.view = c.image) (hdv : imageOf ds.view = ds.image)
    (hne : c.image ≠ ds.image) :
    (∀ (n : Nat) (cl : Call), (buildCommandBuffer d ex c ds cmd).trace[n]? = some cl →
      ∀ (cmd1 : VkCommandBuffer) (info : VkRenderingInfoKHR),
        cl = .vkCmdBeginRenderingKHR cmd1 info →
        ∀ a ∈ attachmentsOf info,
          a.imageLayout =
            trackLayouts layouts ((buildCommandBuffer d ex c ds cmd).trace.take n)
              (imageOf a.imageView)) ∧
    (colorAttachment c).imageLayout = .VK_IMAGE_LAYOUT_COLOR_ATTACHMENT_OPTIMAL ∧
    (depthStencilAttachment ds).imageLayout = .VK_IMAGE_LAYOUT_DEPTH_STENCIL_ATTACHMENT_OPTIMAL ∧
    (∃ (n : Nat) (cl : Call), (buildCommandBuffer d ex c ds cmd).trace[n]? = some cl ∧
      cl = .insertImageMemoryBarrier cmd c.image 0 0
        .VK_IMAGE_LAYOUT_COLOR_ATTACHMENT_OPTIMAL .VK_IMAGE_LAYOUT_PRESENT_SRC_KHR
        [.VK_PIPELINE_STAGE_COLOR_ATTACHMENT_OUTPUT_BIT] [.VK_PIPELINE_STAGE_BOTTOM_OF_PIPE_BIT]
        ⟨[.VK_IMAGE_ASPECT_COLOR_BIT], 0, 1, 0, 1⟩) ∧
    (∀ (n : Nat) (cl : Call), (buildCommandBuffer d ex c ds cmd).trace[n]? = some cl →
      ∀ (cmd1 : VkCommandBuffer) (image : VkImage) (sa da : Nat) (old : VkImageLayout)
        (sm dm : List VkPipelineStageFlagBits) (range : VkImageSubresourceRange),
        cl = .insertImageMemoryBarrier cmd1 image sa da old .VK_IMAGE_LAYOUT_PRESENT_SRC_KHR
          sm dm range →
        image = c.image ∧
        old = trackLayouts layouts ((buildCommandBuffer d ex c ds cmd).trace.take n) image) ∧
    trackLayouts layouts (buildCommandBuffer d ex c ds cmd).trace c.image =
      .VK_IMAGE_LAYOUT_PRESENT_SRC_KHR ∧
    trackLayouts layouts (buildCommandBuffer d ex c ds cmd).trace ds.image =
      .VK_IMAGE_LAYOUT_DEPTH_STENCIL_ATTACHMENT_OPTIMAL := by
  have hne2 : ds.image ≠ c.image := fun h => hne h.symm
  rw [buildCommandBuffer_trace d ex c ds cmd hb]
  refine ⟨?_, rfl, rfl, ⟨17, _, rfl, rfl⟩, ?_, ?_, ?_⟩
  · apply forall_getElem?_of_enum
    simp [List.enum, attachmentsOf, renderingInfoDepthOnly, renderingInfoColorOnly,
      depthStencilAttachment, colorAttachment, trackLayouts, hcv, hdv, hne, hne2]
  · apply forall_getElem?_of_enum
    simp [List.enum, trackLayouts, hne, hne2]
    intro cmd1 image sa da old sm dm range _ himg _ _ hold _ _ _
    subst himg hold
    simp [hne]
  · simp [trackLayouts, hne, hne2]
  · simp [trackLayouts, hne, hne2]

/-- Witness of C11 for the sample data, slot 0, every image starting in the undefined
layout. -/
theorem buildCommandBuffer_layouts_tracked_witness :
    okDriver.vkBeginCommandBuffer 101 = VK_SUCCESS ∧
    demoImageOf 21 = 11 ∧ demoImageOf 40 = 30 ∧ (11 : VkImage) ≠ 30 ∧
    trackLayouts (fun _ => .VK_IMAGE_LAYOUT_UNDEFINED)
      (buildCommandBuffer okDriver demoExample ⟨11, 21⟩ ⟨30, 40⟩ 101).trace 11 =
      .VK_IMAGE_LAYOUT_PRESENT_SRC_KHR ∧
    trackLayouts (fun _ => .VK_IMAGE_LAYOUT_UNDEFINED)
      (buildCommandBuffer okDriver demoExample ⟨11, 21⟩ ⟨30, 40⟩ 101).trace 30 =
      .VK_IMAGE_LAYOUT_DEPTH_STENCIL_ATTACHMENT_OPTIMAL :=
  ⟨rfl, rfl, rfl, by decide,
    (buildCommandBuffer_layouts_tracked okDriver demoExample ⟨11, 21⟩ ⟨30, 40⟩ 101
      (fun _ => .VK_IMAGE_LAYOUT_UNDEFINED) demoImageOf rfl rfl rfl (by decide)).2.2.2.2.2⟩

/-- C12: let the depth format of the harness be a defined format and let `loadShader`
return a record for the stage it is asked for. Then each of the three creation records
of `preparePipelines` agrees with its own attachment declaration: the attachment count of
its color blend state is the color attachment count it declares (1, 1, 0 for full, color
only, depth only); depth test and depth write are each enabled exactly when the depth
format it declares is defined; one of its stages is a fragment stage exactly when the
color attachment count it declares is not zero; and its stage count is the size of its
stage array, every element of which was assigned a stage. -/
theorem pipeline_records_self_consistent (d : Driver) (ex : VulkanExample)
    (hf : ex.depthFormat ≠ VK_FORMAT_UNDEFINED)
    (hls : ∀ (fileName : String) (stage : VkShaderStageFlagBits),
      (d.loadShader fileName stage).stage = stage) :
    (∀ ci ∈ [pipelineCIFull d ex, pipelineCIColorOnly d ex, pipelineCIDepthOnly d ex],
      ∃ rci, ci.pNext = some rci ∧
        ci.pColorBlendState.attachmentCount = rci.colorAttachmentCount ∧
        (ci.pDepthStencilState.depthTestEnable = true ↔
          rci.depthAttachmentFormat ≠ VK_FORMAT_UNDEFINED) ∧
        (ci.pDepthStencilState.depthWriteEnable = true ↔
          rci.depthAttachmentFormat ≠ VK_FORMAT_UNDEFINED) ∧
        (hasFragmentStage ci = true ↔ rci.colorAttachmentCount ≠ 0) ∧
        ci.stageCount = ci.pStages.length ∧
        ci.stageCount = filledStages ci) ∧
    [pipelineCIFull d ex, pipelineCIColorOnly d ex, pipelineCIDepthOnly d ex].map
      (fun ci => ci.pColorBlendState.attachmentCount) = [1, 1, 0] ∧
    [pipelineCIFull d ex, pipelineCIColorOnly d ex, pipelineCIDepthOnly d ex].map
      (fun ci => ci.pNext.map (fun rci => rci.colorAttachmentCount)) = [some 1, some 1, some 0] ∧
    [pipelineCIFull d ex, pipelineCIColorOnly d ex, pipelineCIDepthOnly d ex].map
      (fun ci => ci.stageCount) = [2, 2, 1] := by
  refine ⟨?_, ?_, ?_, ?_⟩
  · simp [pipelineCIFull, pipelineCIColorOnly, pipelineCIDepthOnly, shaderStagesBoth,
      shaderStagesVertex, hasFragmentStage, filledStages, hf, hls]
  · simp [pipelineCIFull, pipelineCIColorOnly, pipelineCIDepthOnly]
  · simp [pipelineCIFull, pipelineCIColorOnly, pipelineCIDepthOnly]
  · simp [pipelineCIFull, pipelineCIColorOnly, pipelineCIDepthOnly, shaderStagesBoth,
      shaderStagesVertex]

/-- Witness of C12 for the sample data. -/
theorem pipeline_records_self_consistent_witness :
    demoExample.depthFormat ≠ VK_FORMAT_UNDEFINED ∧
    (∀ (fileName : String) (stage : VkShaderStageFlagBits),
      (okDriver.loadShader fileName stage).stage = stage) ∧
    [pipelineCIFull okDriver demoExample, pipelineCIColorOnly okDriver demoExample,
        pipelineCIDepthOnly okDriver demoExample].map hasFragmentStage = [true, true, false] ∧
    [pipelineCIFull okDriver demoExample, pipelineCIColorOnly okDriver demoExample,
        pipelineCIDepthOnly okDriver demoExample].map
      (fun ci => ci.stageCount) = [2, 2, 1] :=
  ⟨by decide, fun _ _ => rfl, by decide,
    (pipeline_records_self_consistent okDriver demoExample (by decide) (fun _ _ => rfl)).2.2.2⟩

end DynamicRendering

